import Mathlib

/-!
VA-API helper of VLC (`modules/hw/vaapi/vlc_vaapi.c`).

A shallow embedding of the capability negotiation (`vlc_vaapi_CreateConfigChecked`
and its two probes), of the surface pool (`vlc_vaapi_PoolNew`,
`pool_pic_destroy_cb`) and of the picture-context callbacks, followed by the
properties proved about them.

Conventions of the embedding:
* pointers are natural numbers, `NULL` is `none`;
* the libva driver and the host allocator are records of answers, one field per
  entry point, so that every behaviour (every status, every list, every failed
  allocation) is an input of the model;
* the driver calls, the list allocations of the probes, the log lines and the releases
  of pool memory are appended, in order, to a trace of `Event`s;
* a run that reaches `vlc_assert_unreachable()` or dereferences `NULL` has no
  result (`none`).
-/

namespace VlcVaapi

/-! ## Constants of `va/va.h` and `vlc_fourcc.h` -/

/-- Value of `VA_STATUS_SUCCESS` (va/va.h). -/
def VA_STATUS_SUCCESS : Int := 0

/-- Value of `VA_INVALID_ID` (va/va.h), `0xffffffff`. -/
def VA_INVALID_ID : Nat := 0xffffffff

/-- Value of `VAProfileNone` (va/va.h). -/
def VAProfileNone : Int := -1

/-- Value of `VA_RT_FORMAT_YUV420` (va/va.h). -/
def VA_RT_FORMAT_YUV420 : Nat := 0x00000001

/-- Value of `VA_RT_FORMAT_YUV420_10BPP`, an alias of `VA_RT_FORMAT_YUV420_10` (va/va.h). -/
def VA_RT_FORMAT_YUV420_10BPP : Nat := 0x00000100

/-- Value of `VA_RT_FORMAT_YUV420_12` (va/va.h). -/
def VA_RT_FORMAT_YUV420_12 : Nat := 0x00001000

/-- Value of `VA_FOURCC_NV12` (va/va.h). -/
def VA_FOURCC_NV12 : Int := 0x3231564E

/-- Value of `VA_FOURCC_P010` (va/va.h). -/
def VA_FOURCC_P010 : Int := 0x30313050

/-- Value of `VA_FOURCC_P012` (va/va.h). -/
def VA_FOURCC_P012 : Int := 0x32313050

/-- Value of `VAConfigAttribRTFormat` (va/va.h). -/
def VAConfigAttribRTFormat : Int := 0

/-- Value of `VASurfaceAttribPixelFormat` (va/va.h). -/
def VASurfaceAttribPixelFormat : Int := 1

/-- Value of `VA_SURFACE_ATTRIB_SETTABLE` (va/va.h). -/
def VA_SURFACE_ATTRIB_SETTABLE : Nat := 0x00000002

/-- Value of `VAGenericValueTypeInteger` (va/va.h). -/
def VAGenericValueTypeInteger : Int := 1

/-- Modelled from the spec: the macro `VLC_FOURCC` of `vlc_fourcc.h` is not part of
the sources. A picture chroma value is a four-character tag; the tag is packed here
least significant character first. The development only uses that the three tags below
are pairwise distinct. -/
def VLC_FOURCC (a b c d : Char) : Int :=
  ((a.toNat + b.toNat * 2 ^ 8 + c.toNat * 2 ^ 16 + d.toNat * 2 ^ 24 : Nat) : Int)

/-- Modelled from the spec: the constant `VLC_CODEC_VAAPI_420` of `vlc_fourcc.h` is not
part of the sources; it is the recognised chroma value for YUV420 8-bit. -/
def VLC_CODEC_VAAPI_420 : Int := VLC_FOURCC 'V' 'A' 'O' 'P'

/-- Modelled from the spec: the constant `VLC_CODEC_VAAPI_420_10BPP` of `vlc_fourcc.h`
is not part of the sources; it is the recognised chroma value for YUV420 10-bit. -/
def VLC_CODEC_VAAPI_420_10BPP : Int := VLC_FOURCC 'V' 'A' 'O' '0'

/-- Modelled from the spec: the constant `VLC_CODEC_VAAPI_420_12BPP` of `vlc_fourcc.h`
is not part of the sources; it is the recognised chroma value for YUV420 12-bit. -/
def VLC_CODEC_VAAPI_420_12BPP : Int := VLC_FOURCC 'V' 'A' 'O' '2'

/-! ## The chroma mapping table -/

/-- Embedding of `vlc_chroma_to_vaapi`: the pair `(*va_rt_format, *va_fourcc)` written
by the switch; the `default:` branch is `vlc_assert_unreachable()` and yields `none`. -/
def vlc_chroma_to_vaapi (i_vlc_chroma : Int) : Option (Nat × Int) :=
  if i_vlc_chroma = VLC_CODEC_VAAPI_420 then
    some (VA_RT_FORMAT_YUV420, VA_FOURCC_NV12)
  else if i_vlc_chroma = VLC_CODEC_VAAPI_420_10BPP then
    some (VA_RT_FORMAT_YUV420_10BPP, VA_FOURCC_P010)
  else if i_vlc_chroma = VLC_CODEC_VAAPI_420_12BPP then
    some (VA_RT_FORMAT_YUV420_12, VA_FOURCC_P012)
  else
    none

/-! ## Driver, host allocator and trace -/

/-- The fields of a `VAConfigAttrib` the code reads or writes. -/
structure VAConfigAttrib where
  type : Int
  value : Nat
  deriving DecidableEq, Repr

/-- The fields of a `VASurfaceAttrib` the code reads or writes
(`value_type` is `value.type`, `value_i` is `value.value.i`). -/
structure VASurfaceAttrib where
  type : Int
  flags : Nat
  value_type : Int
  value_i : Int
  deriving DecidableEq, Repr

/-- The log lines of `vlc_vaapi_CreateConfigChecked` and of the `VA_CALL` wrapper. -/
inductive Msg where
  | profile_not_supported (i_profile : Int)
  | entrypoint_not_available (entrypoint : Int)
  | vaGetConfigAttributes_failed
  | config_no_yuv420
  | config_no_forced_fourcc
  | va_call_failed (status : Int)
  deriving DecidableEq, Repr

/-- One observable step of a run: a driver call, a host allocation or a log line. -/
inductive Event where
  | vaMaxNumProfiles (dpy : Nat)
  | calloc (nmemb : Nat)
  | vaQueryConfigProfiles (dpy : Nat)
  | vaMaxNumEntrypoints (dpy : Nat)
  | vlc_alloc (count : Nat)
  | vaQueryConfigEntrypoints (dpy : Nat) (i_profile : Int)
  | vaGetConfigAttributes (dpy : Nat) (i_profile entrypoint : Int)
  | vaCreateConfig (dpy : Nat) (i_profile entrypoint : Int) (attribs : List VAConfigAttrib)
  | vaQuerySurfaceAttributes (dpy config : Nat) (with_list : Bool)
  | vaDestroyConfig (dpy config : Nat)
  | vaCreateSurfaces (dpy format width height num_surfaces : Nat)
      (attribs : List VASurfaceAttrib)
  | vaDestroySurfaces (dpy : Nat) (surfaces : List Nat) (num_surfaces : Nat)
  | free_instance (ptr : Nat)
  | free_p_sys (pic : Nat)
  | msg_Err (m : Msg)
  deriving DecidableEq, Repr

/-- Every answer the libva driver can give to the calls of the negotiation.
A query that fills a caller buffer answers with its status and with the entries
it wrote, whose number is the count it stored back. -/
structure Driver where
  vaMaxNumProfiles : Nat → Int
  vaQueryConfigProfiles : Nat → Int × List Int
  vaMaxNumEntrypoints : Nat → Int
  vaQueryConfigEntrypoints : Nat → Int → Int × List Int
  /-- The status and the `value` stored in the attribute. -/
  vaGetConfigAttributes : Nat → Int → Int → Int × Nat
  /-- Given the display, profile, entrypoint and the value of the single attribute: the
  status and the content of `va_config_id` after the call (`VA_INVALID_ID`, its initial
  value, when the driver left it untouched). -/
  vaCreateConfig : Nat → Int → Int → Nat → Int × Nat
  /-- The first query (`attrib_list == NULL`): the status and the count stored. -/
  vaQuerySurfaceAttributes_num : Nat → Nat → Int × Nat
  /-- The second query: the status and the attributes written. -/
  vaQuerySurfaceAttributes : Nat → Nat → Nat → Int × List VASurfaceAttrib
  vaDestroyConfig : Nat → Nat → Int

/-- Every answer of the host allocator to the three list allocations: `true` when the
returned pointer is not `NULL`. -/
structure Host where
  calloc : Nat → Bool
  vlc_alloc_entrypoints : Nat → Bool
  vlc_alloc_sattribs : Nat → Bool

/-! ## Capability probes -/

/-- Embedding of `IsVaProfileSupported`: the answer and the trace of the probe. -/
def IsVaProfileSupported (d : Driver) (h : Host) (dpy : Nat) (i_profile : Int) :
    Bool × List Event :=
  if i_profile = VAProfileNone then (true, [])
  else
    let i_profiles_nb := d.vaMaxNumProfiles dpy
    let t1 := [Event.vaMaxNumProfiles dpy]
    if i_profiles_nb < 0 then (false, t1)
    else
      let t2 := t1 ++ [Event.calloc i_profiles_nb.toNat]
      if h.calloc i_profiles_nb.toNat = false then (false, t2)
      else
        let r := d.vaQueryConfigProfiles dpy
        let t3 := t2 ++ [Event.vaQueryConfigProfiles dpy]
        if r.1 ≠ VA_STATUS_SUCCESS then (false, t3)
        else (r.2.any (fun p => p == i_profile), t3)

/-- Embedding of `IsEntrypointAvailable`: the answer and the trace of the probe. -/
def IsEntrypointAvailable (d : Driver) (h : Host) (dpy : Nat) (i_profile entrypoint : Int) :
    Bool × List Event :=
  let num_entrypoints := d.vaMaxNumEntrypoints dpy
  let t1 := [Event.vaMaxNumEntrypoints dpy]
  if num_entrypoints ≤ 0 then (false, t1)
  else
    let t2 := t1 ++ [Event.vlc_alloc num_entrypoints.toNat]
    if h.vlc_alloc_entrypoints num_entrypoints.toNat = false then (false, t2)
    else
      let r := d.vaQueryConfigEntrypoints dpy i_profile
      let t3 := t2 ++ [Event.vaQueryConfigEntrypoints dpy i_profile]
      if r.1 ≠ VA_STATUS_SUCCESS then (false, t3)
      else (r.2.any (fun e => entrypoint == e), t3)

/-! ## Configuration factory -/

/-- Modelled from the spec: the macro `VA_CALL` of `vlc_vaapi.h` is not part of the
sources. Per the driver call adapter, a status other than success is logged and the
caller jumps to its `error:` label: this is the log line appended in that case. -/
def VA_CALL_log (status : Int) : List Event :=
  if status ≠ VA_STATUS_SUCCESS then [Event.msg_Err (Msg.va_call_failed status)] else []

/-- Embedding of `vlc_vaapi_DestroyConfig`: the call through `VA_CALL`, as a trace. -/
def vlc_vaapi_DestroyConfig (d : Driver) (dpy conf : Nat) : List Event :=
  [Event.vaDestroyConfig dpy conf] ++ VA_CALL_log (d.vaDestroyConfig dpy conf)

/-- The `error:` label of `vlc_vaapi_CreateConfigChecked`, reached with the trace `t`:
the config is destroyed when `va_config_id` is not `VA_INVALID_ID`. -/
def CreateConfigChecked_error (d : Driver) (dpy va_config_id : Nat) (t : List Event) :
    Nat × List Event :=
  if va_config_id ≠ VA_INVALID_ID then
    (VA_INVALID_ID,
      t ++ [Event.msg_Err Msg.config_no_forced_fourcc] ++ vlc_vaapi_DestroyConfig d dpy va_config_id)
  else (VA_INVALID_ID, t)

/-- The test of the loop over the surface attributes of `vlc_vaapi_CreateConfigChecked`. -/
def sattrib_matches (va_force_fourcc : Int) (sattrib : VASurfaceAttrib) : Bool :=
  sattrib.type == VASurfaceAttribPixelFormat
    && (sattrib.flags &&& VA_SURFACE_ATTRIB_SETTABLE != 0)
    && sattrib.value_i == va_force_fourcc

/-- The part of `vlc_vaapi_CreateConfigChecked` after `vaCreateConfig` succeeded with a
forced four-character code: both surface-attribute queries and the search. -/
def CreateConfigChecked_forced (d : Driver) (h : Host) (dpy va_config_id : Nat)
    (va_force_fourcc : Int) (t : List Event) : Nat × List Event :=
  let q1 := d.vaQuerySurfaceAttributes_num dpy va_config_id
  let t1 := t ++ [Event.vaQuerySurfaceAttributes dpy va_config_id false]
  if q1.1 ≠ VA_STATUS_SUCCESS then CreateConfigChecked_error d dpy va_config_id t1
  else
    let num_sattribs := q1.2
    let t2 := t1 ++ [Event.vlc_alloc num_sattribs]
    if h.vlc_alloc_sattribs num_sattribs = false then
      CreateConfigChecked_error d dpy va_config_id t2
    else
      let q2 := d.vaQuerySurfaceAttributes dpy va_config_id num_sattribs
      let t3 := t2 ++ [Event.vaQuerySurfaceAttributes dpy va_config_id true]
      if q2.1 ≠ VA_STATUS_SUCCESS then CreateConfigChecked_error d dpy va_config_id t3
      else if q2.2.any (sattrib_matches va_force_fourcc) then (va_config_id, t3)
      else CreateConfigChecked_error d dpy va_config_id t3

/-- The part of `vlc_vaapi_CreateConfigChecked` after the forced chroma is resolved to
`va_force_fourcc` (`0` when no chroma is forced): the returned id and the trace. -/
def CreateConfigChecked_checked (d : Driver) (h : Host) (dpy : Nat)
    (i_profile entrypoint va_force_fourcc : Int) : Nat × List Event :=
  let p := IsVaProfileSupported d h dpy i_profile
  if p.1 = false then
    (VA_INVALID_ID, p.2 ++ [Event.msg_Err (Msg.profile_not_supported i_profile)])
  else
    let e := IsEntrypointAvailable d h dpy i_profile entrypoint
    let t0 := p.2 ++ e.2
    if e.1 = false then
      (VA_INVALID_ID, t0 ++ [Event.msg_Err (Msg.entrypoint_not_available entrypoint)])
    else
      let g := d.vaGetConfigAttributes dpy i_profile entrypoint
      let t1 := t0 ++ [Event.vaGetConfigAttributes dpy i_profile entrypoint]
      if g.1 ≠ 0 then (VA_INVALID_ID, t1 ++ [Event.msg_Err Msg.vaGetConfigAttributes_failed])
      else
        let attrib : VAConfigAttrib := { type := VAConfigAttribRTFormat, value := g.2 }
        if attrib.value &&& (VA_RT_FORMAT_YUV420 ||| VA_RT_FORMAT_YUV420_10BPP) = 0 then
          (VA_INVALID_ID, t1 ++ [Event.msg_Err Msg.config_no_yuv420])
        else
          let c := d.vaCreateConfig dpy i_profile entrypoint attrib.value
          let va_config_id := c.2
          let t2 := t1 ++ [Event.vaCreateConfig dpy i_profile entrypoint [attrib]]
          if c.1 ≠ VA_STATUS_SUCCESS then
            CreateConfigChecked_error d dpy va_config_id (t2 ++ VA_CALL_log c.1)
          else if va_force_fourcc = 0 then (va_config_id, t2)
          else CreateConfigChecked_forced d h dpy va_config_id va_force_fourcc t2

/-- Embedding of `vlc_vaapi_CreateConfigChecked`: the returned `VAConfigID` and the
trace, or `none` when the forced chroma reaches `vlc_assert_unreachable()`. -/
def vlc_vaapi_CreateConfigChecked (d : Driver) (h : Host) (dpy : Nat)
    (i_profile entrypoint i_force_vlc_chroma : Int) : Option (Nat × List Event) :=
  let va_force_fourcc : Option Int :=
    if i_force_vlc_chroma ≠ 0 then (vlc_chroma_to_vaapi i_force_vlc_chroma).map Prod.snd
    else some 0
  match va_force_fourcc with
  | none => none
  | some fourcc => some (CreateConfigChecked_checked d h dpy i_profile entrypoint fourcc)

/-- Whether an event is a call of `vaCreateConfig`. -/
def Event.isCreateConfig : Event → Bool
  | Event.vaCreateConfig _ _ _ _ => true
  | _ => false

/-- Whether an event is a call of `vaDestroyConfig`. -/
def Event.isDestroyConfig : Event → Bool
  | Event.vaDestroyConfig _ _ => true
  | _ => false

/-! ## Sample drivers -/

/-- A driver that answers every call with success: `max_profiles` is its maximum
profile count (it lists profile 23 when that is positive), it offers entrypoint 1,
reports `rt_value` as RT format, creates the config `config_id`, and answers the two
surface-attribute queries with `q1` and `q2`. -/
def sample_driver (max_profiles : Int) (rt_value config_id : Nat) (q1 : Int × Nat)
    (q2 : Int × List VASurfaceAttrib) : Driver where
  vaMaxNumProfiles := fun _ => max_profiles
  vaQueryConfigProfiles := fun _ => (VA_STATUS_SUCCESS, if 0 < max_profiles then [23] else [])
  vaMaxNumEntrypoints := fun _ => 1
  vaQueryConfigEntrypoints := fun _ _ => (VA_STATUS_SUCCESS, [1])
  vaGetConfigAttributes := fun _ _ _ => (VA_STATUS_SUCCESS, rt_value)
  vaCreateConfig := fun _ _ _ _ => (VA_STATUS_SUCCESS, config_id)
  vaQuerySurfaceAttributes_num := fun _ _ => q1
  vaQuerySurfaceAttributes := fun _ _ _ => q2
  vaDestroyConfig := fun _ _ => VA_STATUS_SUCCESS

/-- A host allocator whose allocations all succeed, zero-length ones included. -/
def sample_host : Host where
  calloc := fun _ => true
  vlc_alloc_entrypoints := fun _ => true
  vlc_alloc_sattribs := fun _ => true

/-- A settable pixel-format surface attribute of the given four-character code. -/
def pixel_format_attrib (fourcc : Int) : VASurfaceAttrib where
  type := VASurfaceAttribPixelFormat
  flags := VA_SURFACE_ATTRIB_SETTABLE
  value_type := VAGenericValueTypeInteger
  value_i := fourcc

/-- The predicate "neither `vaCreateConfig` nor `vaDestroyConfig`" on events. -/
def Event.noConfigCall (e : Event) : Bool := !e.isCreateConfig && !e.isDestroyConfig

/-- The condition of the claim on a forced format, in its words: both surface-attribute
queries on the config succeed (the list between them being allocated) and some returned
attribute has the pixel-format type, the settable flag and the forced four-character
code as value. -/
def forced_format_confirmed (d : Driver) (h : Host) (dpy va_config_id : Nat) (fourcc : Int) :
    Prop :=
  (d.vaQuerySurfaceAttributes_num dpy va_config_id).1 = VA_STATUS_SUCCESS ∧
  h.vlc_alloc_sattribs (d.vaQuerySurfaceAttributes_num dpy va_config_id).2 = true ∧
  (d.vaQuerySurfaceAttributes dpy va_config_id
    (d.vaQuerySurfaceAttributes_num dpy va_config_id).2).1 = VA_STATUS_SUCCESS ∧
  ∃ a ∈ (d.vaQuerySurfaceAttributes dpy va_config_id
      (d.vaQuerySurfaceAttributes_num dpy va_config_id).2).2,
    a.type = VASurfaceAttribPixelFormat ∧ a.flags &&& VA_SURFACE_ATTRIB_SETTABLE ≠ 0 ∧
      a.value_i = fourcc

/-! ## Pictures, picture contexts and the surface pool: data -/

/-- The destroy callbacks this file stores in a `picture_context_t`. -/
inductive destroy_cb where
  | pic_sys_ctx_destroy_cb
  | pic_ctx_destroy_cb
  deriving DecidableEq, Repr

/-- The copy callback this file stores in a `picture_context_t`. -/
inductive copy_cb where
  | pic_ctx_copy_cb
  deriving DecidableEq, Repr

/-- Modelled from the spec: the type `picture_context_t` of `vlc_picture.h` is not part
of the sources; it is the attachment record header: destroy callback, copy callback and
owning video-context reference, in the order of the initialiser in `vlc_vaapi_PoolNew`. -/
structure picture_context_t where
  destroy : destroy_cb
  copy : copy_cb
  vctx : Nat
  deriving DecidableEq, Repr

/-- Modelled from the spec: the type `struct vaapi_pic_context` of `vlc_vaapi.h` is not
part of the sources; it holds the header `s`, the surface identity and the display
handle. -/
structure vaapi_pic_context where
  s : picture_context_t
  surface : Nat
  va_dpy : Nat
  deriving DecidableEq, Repr

/-- Embedding of `struct vaapi_pic_ctx`; `picref` is a picture pointer or `NULL`. -/
structure vaapi_pic_ctx where
  ctx : vaapi_pic_context
  picref : Option Nat
  deriving DecidableEq, Repr

/-- Embedding of `struct pic_sys_vaapi_instance`. The field `pic_refcount` is the 32-bit
content of the `atomic_int`, kept as its residue modulo `2 ^ 32` (two's complement: the
residue `2 ^ 32 - 1` is the value `-1`). -/
structure pic_sys_vaapi_instance where
  pic_refcount : Nat
  num_render_targets : Nat
  render_targets : List Nat
  deriving DecidableEq, Repr

/-- Embedding of `picture_sys_t`; `instance_` is the pointer to the shared instance. -/
structure picture_sys_t where
  instance_ : Nat
  ctx : vaapi_pic_ctx
  deriving DecidableEq, Repr

/-- A pointer to a `struct vaapi_pic_ctx`: the one embedded in the `p_sys` of a picture,
or a block allocated by `pic_ctx_copy_cb`. -/
inductive ctx_ptr where
  | p_sys (pic : Nat)
  | heap (addr : Nat)
  deriving DecidableEq, Repr

/-- Modelled from the spec: the type `picture_t` of `vlc_picture.h` is not part of the
sources; of a picture the module uses its hold count, the chroma of its format, its
`p_sys` and its `context`. The pictures of the model are those built by
`vlc_vaapi_PoolNew`, whose destroy callback is `pool_pic_destroy_cb`. -/
structure picture_t where
  refs : Nat
  i_chroma : Int
  p_sys : Option picture_sys_t
  context : Option ctx_ptr
  deriving DecidableEq, Repr

/-- Modelled from the spec: the type `picture_pool_t` of `vlc_picture_pool.h` is not part
of the sources; a pool is built over the pictures handed to `picture_pool_New`. -/
structure picture_pool_t where
  pics : List Nat
  deriving DecidableEq, Repr

/-- The fields of `video_format_t` read by `vlc_vaapi_PoolNew`. -/
structure video_format_t where
  i_chroma : Int
  i_visible_width : Nat
  i_visible_height : Nat
  deriving DecidableEq, Repr

/-- The memory and the outside world of a run: the instances, pictures and copied
contexts by address (`none` where nothing is allocated), the next address `malloc` gives
to a copied context, the hold count of every video context, and the trace. -/
structure State where
  instances : Nat → Option pic_sys_vaapi_instance
  pics : Nat → Option picture_t
  ctxs : Nat → Option vaapi_pic_ctx
  next_ctx : Nat
  vctx_refs : Nat → Nat
  trace : List Event

/-- The state before any allocation, with the given video-context hold counts. -/
def State.init (vctx_refs : Nat → Nat) : State where
  instances := fun _ => none
  pics := fun _ => none
  ctxs := fun _ => none
  next_ctx := 0
  vctx_refs := vctx_refs
  trace := []

/-- The `struct vaapi_pic_ctx` a pointer designates, if it is allocated. -/
def State.vaapi_pic_ctx_at (s : State) : ctx_ptr → Option vaapi_pic_ctx
  | ctx_ptr.p_sys pic => (s.pics pic).bind (fun p => p.p_sys.map (fun q => q.ctx))
  | ctx_ptr.heap addr => s.ctxs addr

/-- The hold count of a picture, if it is alive. -/
def State.pic_refs (s : State) (pic : Nat) : Option Nat := (s.pics pic).map (fun p => p.refs)

/-! ## Collaborators: video context and picture core -/

/-- Modelled from the spec: `vlc_video_context_Hold` (video-context collaborator, not
part of the sources) takes one more hold on the video context. -/
def vlc_video_context_Hold (s : State) (vctx : Nat) : State :=
  { s with vctx_refs := Function.update s.vctx_refs vctx (s.vctx_refs vctx + 1) }

/-- Modelled from the spec: `picture_Hold` (picture core, not part of the sources) takes
one more hold on a picture; it has no result on a dead picture. -/
def picture_Hold (s : State) (pic : Nat) : Option State :=
  match s.pics pic with
  | none => none
  | some p => some { s with pics := Function.update s.pics pic (some { p with refs := p.refs + 1 }) }

/-- Modelled from the spec: `vlc_vaapi_IsChromaOpaque` of `vlc_vaapi.h` is not part of
the sources; the opaque chromas are the three recognised chroma values. -/
def vlc_vaapi_IsChromaOpaque (i_vlc_chroma : Int) : Bool :=
  i_vlc_chroma == VLC_CODEC_VAAPI_420 || i_vlc_chroma == VLC_CODEC_VAAPI_420_10BPP
    || i_vlc_chroma == VLC_CODEC_VAAPI_420_12BPP

/-! ## Surface pool -/

/-- Embedding of `pool_pic_destroy_cb`: `atomic_fetch_sub` on the shared count, the
teardown of the batch and of the instance when the value fetched is 1, then the release
of the `p_sys` of the picture. No result on a dangling pointer. -/
def pool_pic_destroy_cb (s : State) (pic : Nat) : Option State :=
  match s.pics pic with
  | none => none
  | some p =>
    match p.p_sys with
    | none => none
    | some p_sys =>
      match s.instances p_sys.instance_ with
      | none => none
      | some inst =>
        let fetched := inst.pic_refcount
        let s1 : State := { s with
          instances := Function.update s.instances p_sys.instance_
            (some { inst with pic_refcount := (inst.pic_refcount + (2 ^ 32 - 1)) % 2 ^ 32 }) }
        let s2 : State :=
          if fetched = 1 then
            { s1 with
              instances := Function.update s1.instances p_sys.instance_ none
              trace := s1.trace ++
                [Event.vaDestroySurfaces p_sys.ctx.ctx.va_dpy inst.render_targets
                  inst.num_render_targets,
                 Event.free_instance p_sys.instance_] }
          else s1
        some { s2 with
          pics := Function.update s2.pics pic (some { p with p_sys := none })
          trace := s2.trace ++ [Event.free_p_sys pic] }

/-- Modelled from the spec: `picture_Release` (picture core, not part of the sources)
drops one hold; dropping the last one invokes the destroy callback of the resource,
`pool_pic_destroy_cb`, after which the picture is gone. The teardown of an attachment
still carried by a dying picture belongs to the picture core and is left out: such a
release has no result in the model. -/
def picture_Release (s : State) (pic : Nat) : Option State :=
  match s.pics pic with
  | none => none
  | some p =>
    if 1 < p.refs then
      some { s with pics := Function.update s.pics pic (some { p with refs := p.refs - 1 }) }
    else
      match p.context with
      | some _ => none
      | none =>
        (pool_pic_destroy_cb s pic).map
          (fun s1 => { s1 with pics := Function.update s1.pics pic none })

/-- Every answer of the driver, of the host allocator and of the picture core to the
calls of `vlc_vaapi_PoolNew`: `true` for a pointer that is not `NULL`; the answer of
`vaCreateSurfaces` is its status and the id it wrote in each slot of the array. -/
structure PoolEnv where
  malloc_instance : Bool
  vaCreateSurfaces : Int × (Nat → Nat)
  malloc_p_sys : Nat → Bool
  picture_NewFromResource : Nat → Bool
  picture_pool_New : Bool
  vaDestroySurfaces : Int

/-- What `vlc_vaapi_PoolNew` hands back: the returned pool (`none` for `NULL`), the
pointer stored in `*render_targets` if one was stored (the address of the instance whose
array it is), and the state reached. -/
structure PoolNewResult where
  pool : Option picture_pool_t
  render_targets : Option Nat
  state : State

/-- The loop of `vlc_vaapi_PoolNew` from index `i` with `remaining` iterations left: builds
`pics[i]` and the following ones; the first component is the index at which a
construction step failed, if one did. The picture `pics[i]` is allocated at address `i`. -/
def PoolNew_loop (env : PoolEnv) (vctx dpy : Nat) (fmt : video_format_t) (instance_ : Nat)
    (render_targets : List Nat) : Nat → Nat → State → Option Nat × State
  | 0, _, s => (none, s)
  | remaining + 1, i, s =>
    if env.malloc_p_sys i = false then (some i, s)
    else
      let p_sys : picture_sys_t :=
        { instance_ := instance_
          ctx :=
            { ctx :=
                { s := { destroy := destroy_cb.pic_sys_ctx_destroy_cb
                         copy := copy_cb.pic_ctx_copy_cb
                         vctx := vctx }
                  surface := render_targets.getD i 0
                  va_dpy := dpy }
              picref := none } }
      if env.picture_NewFromResource i = false then (some i, s)
      else
        let pic : picture_t :=
          { refs := 1, i_chroma := fmt.i_chroma, p_sys := some p_sys, context := none }
        PoolNew_loop env vctx dpy fmt instance_ render_targets remaining (i + 1)
          { s with pics := Function.update s.pics i (some pic) }

/-- The loop at the label `error_pic` of `vlc_vaapi_PoolNew`:
`while (count > 0) picture_Release(pics[--count]);`. -/
def PoolNew_release : Nat → State → Option State
  | 0, s => some s
  | count + 1, s => (picture_Release s count).bind (PoolNew_release count)

/-- The labels `error_pic` and `error` of `vlc_vaapi_PoolNew`, reached with `count`
pictures built: they are released, the whole batch is destroyed through `VA_CALL`,
then the instance is freed and `NULL` is returned. -/
def PoolNew_error_pic (env : PoolEnv) (dpy instance_ : Nat) (count : Nat) (s : State) :
    Option PoolNewResult :=
  (PoolNew_release count s).bind fun s1 =>
    match s1.instances instance_ with
    | none => none
    | some inst =>
      some
        { pool := none
          render_targets := none
          state := { s1 with
            instances := Function.update s1.instances instance_ none
            trace := s1.trace ++
              [Event.vaDestroySurfaces dpy inst.render_targets inst.num_render_targets] ++
              VA_CALL_log env.vaDestroySurfaces ++ [Event.free_instance instance_] } }

/-- Embedding of `vlc_vaapi_PoolNew`, run on a fresh memory (the instance is allocated at
address 0, `pics[i]` at address `i`) with the given video-context hold counts. No
result when the chroma of the format reaches `vlc_assert_unreachable()`. -/
def vlc_vaapi_PoolNew (env : PoolEnv) (vctx_refs : Nat → Nat) (vctx dpy count : Nat)
    (fmt : video_format_t) : Option PoolNewResult :=
  match vlc_chroma_to_vaapi fmt.i_chroma with
  | none => none
  | some (va_rt_format, va_fourcc) =>
    let s0 := State.init vctx_refs
    if env.malloc_instance = false then
      some { pool := none, render_targets := none, state := s0 }
    else
      let instance_ := 0
      let fourcc_attribs : List VASurfaceAttrib :=
        [{ type := VASurfaceAttribPixelFormat
           flags := VA_SURFACE_ATTRIB_SETTABLE
           value_type := VAGenericValueTypeInteger
           value_i := va_fourcc }]
      let render_targets := (List.range count).map env.vaCreateSurfaces.2
      let inst : pic_sys_vaapi_instance :=
        { pic_refcount := 0, num_render_targets := count, render_targets := render_targets }
      let s1 : State := { s0 with
        instances := Function.update s0.instances instance_ (some inst)
        trace := s0.trace ++
          [Event.vaCreateSurfaces dpy va_rt_format fmt.i_visible_width fmt.i_visible_height
            inst.num_render_targets fourcc_attribs] }
      if env.vaCreateSurfaces.1 ≠ VA_STATUS_SUCCESS then
        some
          { pool := none
            render_targets := none
            state := { s1 with
              instances := Function.update s1.instances instance_ none
              trace := s1.trace ++ VA_CALL_log env.vaCreateSurfaces.1 ++
                [Event.free_instance instance_] } }
      else
        match PoolNew_loop env vctx dpy fmt instance_ render_targets count 0 s1 with
        | (some i, s2) => PoolNew_error_pic env dpy instance_ i s2
        | (none, s2) =>
          if env.picture_pool_New = false then PoolNew_error_pic env dpy instance_ count s2
          else
            let pool : picture_pool_t := { pics := List.range count }
            some
              { pool := some pool
                render_targets := some instance_
                state := { s2 with
                  instances := Function.update s2.instances instance_
                    (some { inst with pic_refcount := count % 2 ^ 32 }) } }

/-- Runs `pool_pic_destroy_cb` on the pictures of a list, in the order of the list. -/
def run_pool_pic_destroy_cb : List Nat → State → Option State
  | [], s => some s
  | pic :: rest, s => (pool_pic_destroy_cb s pic).bind (run_pool_pic_destroy_cb rest)

/-- Whether an event is a call of `vaDestroySurfaces`. -/
def Event.isDestroySurfaces : Event → Bool
  | Event.vaDestroySurfaces _ _ _ => true
  | _ => false

/-- Whether an event is the release of an instance. -/
def Event.isFreeInstance : Event → Bool
  | Event.free_instance _ => true
  | _ => false

/-! ## Picture context binder -/

/-- Embedding of `pic_ctx_destroy_cb`, run on the pointer `ctx`: the referenced picture
is released, then the block is freed. No result on a dangling pointer, on a `NULL`
`picref`, or when the pointer is not a block of `malloc`. -/
def pic_ctx_destroy_cb (s : State) (ctx : ctx_ptr) : Option State :=
  match s.vaapi_pic_ctx_at ctx with
  | none => none
  | some c =>
    match c.picref with
    | none => none
    | some picref =>
      (picture_Release s picref).bind fun s1 =>
        match ctx with
        | ctx_ptr.p_sys _ => none
        | ctx_ptr.heap addr =>
          match s1.ctxs addr with
          | none => none
          | some _ => some { s1 with ctxs := Function.update s1.ctxs addr none }

/-- Embedding of `pic_ctx_copy_cb`, run on the pointer `src` when `malloc` answers
`malloc_ok`: the returned pointer (`none` for `NULL`) and the state. The copy is
allocated at the address `next_ctx`. No result on a dangling `src` or a `NULL`
`picref`. -/
def pic_ctx_copy_cb (malloc_ok : Bool) (s : State) (src : ctx_ptr) :
    Option (Option ctx_ptr × State) :=
  if malloc_ok = false then some (none, s)
  else
    match s.vaapi_pic_ctx_at src with
    | none => none
    | some src_ctx =>
      let dst := s.next_ctx
      let s1 : State := { s with
        ctxs := Function.update s.ctxs dst (some src_ctx), next_ctx := s.next_ctx + 1 }
      let s2 := vlc_video_context_Hold s1 src_ctx.ctx.s.vctx
      let dst_ctx : vaapi_pic_ctx :=
        { src_ctx with ctx := { src_ctx.ctx with
            s := { src_ctx.ctx.s with destroy := destroy_cb.pic_ctx_destroy_cb } } }
      let s3 : State := { s2 with ctxs := Function.update s2.ctxs dst (some dst_ctx) }
      match dst_ctx.picref with
      | none => none
      | some picref => (picture_Hold s3 picref).map fun s4 => (some (ctx_ptr.heap dst), s4)

/-- Embedding of `vlc_vaapi_PicSetContext`; a failed assertion has no result. -/
def vlc_vaapi_PicSetContext (s : State) (pic : Nat) (vaapi_ctx : ctx_ptr) : Option State :=
  match s.pics pic with
  | none => none
  | some p =>
    if vlc_vaapi_IsChromaOpaque p.i_chroma = false then none
    else if p.context ≠ none then none
    else
      let s1 : State := { s with
        pics := Function.update s.pics pic (some { p with context := some vaapi_ctx }) }
      match s1.vaapi_pic_ctx_at vaapi_ctx with
      | none => none
      | some c => some (vlc_video_context_Hold s1 c.ctx.s.vctx)

/-- Embedding of `vlc_vaapi_PicAttachContext`; a failed assertion has no result. -/
def vlc_vaapi_PicAttachContext (s : State) (pic : Nat) : Option State :=
  match s.pics pic with
  | none => none
  | some p =>
    if vlc_vaapi_IsChromaOpaque p.i_chroma = false then none
    else
      match p.p_sys with
      | none => none
      | some p_sys =>
        let s1 : State := { s with
          pics := Function.update s.pics pic
            (some { p with p_sys := some { p_sys with ctx := { p_sys.ctx with picref := some pic } } }) }
        vlc_vaapi_PicSetContext s1 pic (ctx_ptr.p_sys pic)

/-- Embedding of `vlc_vaapi_PicGetSurface`; a failed assertion has no result. -/
def vlc_vaapi_PicGetSurface (s : State) (pic : Nat) : Option Nat :=
  match s.pics pic with
  | none => none
  | some p =>
    if vlc_vaapi_IsChromaOpaque p.i_chroma = false then none
    else
      match p.context with
      | none => none
      | some c => (s.vaapi_pic_ctx_at c).map (fun x => x.ctx.surface)

/-- Embedding of `vlc_vaapi_PicGetDisplay`; a failed assertion has no result. -/
def vlc_vaapi_PicGetDisplay (s : State) (pic : Nat) : Option Nat :=
  match s.pics pic with
  | none => none
  | some p =>
    if vlc_vaapi_IsChromaOpaque p.i_chroma = false then none
    else
      match p.context with
      | none => none
      | some c => (s.vaapi_pic_ctx_at c).map (fun x => x.ctx.va_dpy)

/-! ## Sample environments -/

/-- An environment of `vlc_vaapi_PoolNew` in which every call succeeds and the driver
numbers the surfaces `100, 101, ...`. -/
def sample_env : PoolEnv where
  malloc_instance := true
  vaCreateSurfaces := (VA_STATUS_SUCCESS, fun i => 100 + i)
  malloc_p_sys := fun _ => true
  picture_NewFromResource := fun _ => true
  picture_pool_New := true
  vaDestroySurfaces := VA_STATUS_SUCCESS

/-- The environment `sample_env` in which the construction of `pics[k]` fails. -/
def sample_env_fail_at (k : Nat) : PoolEnv :=
  { sample_env with picture_NewFromResource := fun i => decide (i ≠ k) }

/-- A format of chroma `VLC_CODEC_VAAPI_420`, 64 by 48. -/
def sample_fmt : video_format_t where
  i_chroma := VLC_CODEC_VAAPI_420
  i_visible_width := 64
  i_visible_height := 48


/-- The result of `vlc_vaapi_PoolNew` in `sample_env` for 3 pictures, on the display 5,
with the video context 9 held once. -/
def sample_pool : PoolNewResult :=
  (vlc_vaapi_PoolNew sample_env (fun _ => 1) 9 5 3 sample_fmt).getD
    { pool := none, render_targets := none, state := State.init (fun _ => 0) }

/-- The state of `sample_pool` after `vlc_vaapi_PicAttachContext` on its picture 1. -/
def sample_attached : State :=
  (vlc_vaapi_PicAttachContext sample_pool.state 1).getD (State.init (fun _ => 0))

/-- The result of `pic_ctx_copy_cb` on the attachment of picture 1 in
`sample_attached`. -/
def sample_attached_copy : Option ctx_ptr × State :=
  (pic_ctx_copy_cb true sample_attached (ctx_ptr.p_sys 1)).getD
    (none, State.init (fun _ => 0))

/-- The `p_sys` of `pics[i]` as the loop of `vlc_vaapi_PoolNew` fills it. -/
def pool_p_sys (vctx dpy instance_ : Nat) (render_targets : List Nat) (i : Nat) :
    picture_sys_t where
  instance_ := instance_
  ctx :=
    { ctx :=
        { s := { destroy := destroy_cb.pic_sys_ctx_destroy_cb
                 copy := copy_cb.pic_ctx_copy_cb
                 vctx := vctx }
          surface := render_targets.getD i 0
          va_dpy := dpy }
      picref := none }

/-- The picture `pics[i]` as the loop of `vlc_vaapi_PoolNew` builds it. -/
def pool_picture (vctx dpy : Nat) (fmt : video_format_t) (instance_ : Nat)
    (render_targets : List Nat) (i : Nat) : picture_t where
  refs := 1
  i_chroma := fmt.i_chroma
  p_sys := some (pool_p_sys vctx dpy instance_ render_targets i)
  context := none

/-- The state `s` in which the pictures of addresses `lo` to `hi - 1` are the pool
pictures of these indices. -/
def State.with_pool_pics (s : State) (mk : Nat → picture_t) (lo hi : Nat) : State :=
  { s with pics := fun j => if lo ≤ j ∧ j < hi then some (mk j) else s.pics j }

/-! ## Lemmas on the probes -/


theorem IsVaProfileSupported_noConfigCall (d : Driver) (h : Host) (dpy : Nat) (i_profile : Int) :
    (IsVaProfileSupported d h dpy i_profile).2.all Event.noConfigCall = true := by
  unfold IsVaProfileSupported
  dsimp only
  split_ifs <;> simp [Event.noConfigCall, Event.isCreateConfig, Event.isDestroyConfig]

theorem IsEntrypointAvailable_noConfigCall (d : Driver) (h : Host) (dpy : Nat)
    (i_profile entrypoint : Int) :
    (IsEntrypointAvailable d h dpy i_profile entrypoint).2.all Event.noConfigCall = true := by
  unfold IsEntrypointAvailable
  dsimp only
  split_ifs <;> simp [Event.noConfigCall, Event.isCreateConfig, Event.isDestroyConfig]

theorem CreateConfigChecked_checked_rejects (d : Driver) (h : Host) (dpy : Nat)
    (i_profile entrypoint fourcc : Int)
    (hrej : (IsVaProfileSupported d h dpy i_profile).1 = false ∨
      (IsEntrypointAvailable d h dpy i_profile entrypoint).1 = false) :
    ∃ t, CreateConfigChecked_checked d h dpy i_profile entrypoint fourcc = (VA_INVALID_ID, t) ∧
      t.all Event.noConfigCall = true := by
  have hp := IsVaProfileSupported_noConfigCall d h dpy i_profile
  have he := IsEntrypointAvailable_noConfigCall d h dpy i_profile entrypoint
  unfold CreateConfigChecked_checked
  by_cases h1 : (IsVaProfileSupported d h dpy i_profile).1 = false
  · simp only [h1, if_true]
    refine ⟨_, rfl, ?_⟩
    simp [List.all_append, hp, Event.noConfigCall, Event.isCreateConfig, Event.isDestroyConfig]
  · have h2 : (IsEntrypointAvailable d h dpy i_profile entrypoint).1 = false := by
      rcases hrej with h | h
      · exact absurd h h1
      · exact h
    simp only [h1, h2, if_true, if_false]
    refine ⟨_, rfl, ?_⟩
    simp [List.all_append, hp, he, Event.noConfigCall, Event.isCreateConfig,
      Event.isDestroyConfig]

/-! ## Properties of the chroma table and of the configuration factory -/

/-- C7: `vlc_chroma_to_vaapi` maps the three VA-API chroma values to their
(RT format, four-character code) pairs, and yields a pair if and only if its input is
one of the three. -/
theorem vlc_chroma_to_vaapi_table :
    vlc_chroma_to_vaapi VLC_CODEC_VAAPI_420 = some (VA_RT_FORMAT_YUV420, VA_FOURCC_NV12) ∧
    vlc_chroma_to_vaapi VLC_CODEC_VAAPI_420_10BPP
      = some (VA_RT_FORMAT_YUV420_10BPP, VA_FOURCC_P010) ∧
    vlc_chroma_to_vaapi VLC_CODEC_VAAPI_420_12BPP
      = some (VA_RT_FORMAT_YUV420_12, VA_FOURCC_P012) ∧
    ∀ c : Int, (vlc_chroma_to_vaapi c).isSome = true ↔
      (c = VLC_CODEC_VAAPI_420 ∨ c = VLC_CODEC_VAAPI_420_10BPP
        ∨ c = VLC_CODEC_VAAPI_420_12BPP) := by
  refine ⟨by decide, by decide, by decide, ?_⟩
  intro c
  unfold vlc_chroma_to_vaapi
  split_ifs with h1 h2 h3 <;> simp [*]

/-- C3: for every display, profile and entrypoint and every forced chroma the function
accepts (`0`, no chroma forced, or one of the three values of the mapping table, any other
value being the contract violation of `vlc_chroma_to_vaapi`), when the profile is not
supported or the entrypoint is not available, `vlc_vaapi_CreateConfigChecked` returns
`VA_INVALID_ID` and its trace holds no `vaCreateConfig` and no `vaDestroyConfig`. -/
theorem CreateConfigChecked_rejects_unsupported (d : Driver) (h : Host) (dpy : Nat)
    (i_profile entrypoint i_force_vlc_chroma : Int)
    (hchroma : i_force_vlc_chroma = 0 ∨
      (vlc_chroma_to_vaapi i_force_vlc_chroma).isSome = true)
    (hrej : (IsVaProfileSupported d h dpy i_profile).1 = false ∨
      (IsEntrypointAvailable d h dpy i_profile entrypoint).1 = false) :
    ∃ t, vlc_vaapi_CreateConfigChecked d h dpy i_profile entrypoint i_force_vlc_chroma
        = some (VA_INVALID_ID, t) ∧
      t.all Event.noConfigCall = true ∧
      t.filter Event.isCreateConfig = [] ∧ t.filter Event.isDestroyConfig = [] := by
  obtain ⟨t, ht, hall⟩ :=
    CreateConfigChecked_checked_rejects d h dpy i_profile entrypoint
      (if i_force_vlc_chroma ≠ 0 then
        ((vlc_chroma_to_vaapi i_force_vlc_chroma).map Prod.snd).getD 0 else 0) hrej
  have hall2 := List.all_eq_true.mp hall
  refine ⟨t, ?_, hall, ?_, ?_⟩
  · unfold vlc_vaapi_CreateConfigChecked
    by_cases h0 : i_force_vlc_chroma = 0
    · simpa [h0] using ht
    · have hs : (vlc_chroma_to_vaapi i_force_vlc_chroma).isSome = true := by
        rcases hchroma with hc | hc
        · exact absurd hc h0
        · exact hc
      obtain ⟨pr, hpr⟩ := Option.isSome_iff_exists.mp hs
      simpa [h0, hpr] using ht
  · rw [List.filter_eq_nil_iff]
    intro e he
    have := hall2 e he
    simp [Event.noConfigCall] at this
    simp [this.1]
  · rw [List.filter_eq_nil_iff]
    intro e he
    have := hall2 e he
    simp [Event.noConfigCall] at this
    simp [this.2]

/-- Witness of `CreateConfigChecked_rejects_unsupported`: a driver without any profile,
asked for profile 23 with the forced chroma `VLC_CODEC_VAAPI_420`. -/
theorem CreateConfigChecked_rejects_unsupported_witness :
    ((IsVaProfileSupported (sample_driver 0 1 7 (0, 0) (0, [])) sample_host 0 23).1 = false ∧
      (vlc_chroma_to_vaapi VLC_CODEC_VAAPI_420).isSome = true) ∧
    ∃ t, vlc_vaapi_CreateConfigChecked (sample_driver 0 1 7 (0, 0) (0, [])) sample_host
        0 23 1 VLC_CODEC_VAAPI_420 = some (VA_INVALID_ID, t) ∧
      t.all Event.noConfigCall = true ∧
      t.filter Event.isCreateConfig = [] ∧ t.filter Event.isDestroyConfig = [] :=
  ⟨⟨by decide, by decide⟩,
   CreateConfigChecked_rejects_unsupported (sample_driver 0 1 7 (0, 0) (0, [])) sample_host
      0 23 1 VLC_CODEC_VAAPI_420 (Or.inr (by decide)) (Or.inl (by decide))⟩

theorem vlc_chroma_to_vaapi_fourcc_ne_zero (c : Int) (rt : Nat) (fourcc : Int)
    (hc : vlc_chroma_to_vaapi c = some (rt, fourcc)) : fourcc ≠ 0 := by
  unfold vlc_chroma_to_vaapi at hc
  split_ifs at hc <;> simp only [Option.some.injEq, Prod.mk.injEq] at hc <;>
    (obtain ⟨-, rfl⟩ := hc; decide)

theorem any_sattrib_matches (fourcc : Int) (l : List VASurfaceAttrib) :
    l.any (sattrib_matches fourcc) = true ↔
      ∃ a ∈ l, a.type = VASurfaceAttribPixelFormat ∧
        a.flags &&& VA_SURFACE_ATTRIB_SETTABLE ≠ 0 ∧ a.value_i = fourcc := by
  simp [List.any_eq_true, sattrib_matches, and_assoc]

theorem filter_isDestroyConfig_profile (d : Driver) (h : Host) (dpy : Nat) (i_profile : Int) :
    (IsVaProfileSupported d h dpy i_profile).2.filter Event.isDestroyConfig = [] := by
  have hp := IsVaProfileSupported_noConfigCall d h dpy i_profile
  rw [List.all_eq_true] at hp
  rw [List.filter_eq_nil_iff]
  intro e he1
  have := hp e he1
  simp [Event.noConfigCall] at this
  simp [this.2]

theorem filter_isDestroyConfig_entrypoint (d : Driver) (h : Host) (dpy : Nat)
    (i_profile entrypoint : Int) :
    (IsEntrypointAvailable d h dpy i_profile entrypoint).2.filter Event.isDestroyConfig
      = [] := by
  have he := IsEntrypointAvailable_noConfigCall d h dpy i_profile entrypoint
  rw [List.all_eq_true] at he
  rw [List.filter_eq_nil_iff]
  intro e he1
  have := he e he1
  simp [Event.noConfigCall] at this
  simp [this.2]

theorem filter_isDestroyConfig_DestroyConfig (d : Driver) (dpy conf : Nat) :
    (vlc_vaapi_DestroyConfig d dpy conf).filter Event.isDestroyConfig
      = [Event.vaDestroyConfig dpy conf] := by
  unfold vlc_vaapi_DestroyConfig VA_CALL_log
  split_ifs <;> simp [List.filter, Event.isDestroyConfig]

/-- The two outcomes of the forced-format check on a config other than
`VA_INVALID_ID`. -/
theorem CreateConfigChecked_forced_cases (d : Driver) (h : Host) (dpy va_config_id : Nat)
    (fourcc : Int) (t : List Event) (hid : va_config_id ≠ VA_INVALID_ID) :
    (forced_format_confirmed d h dpy va_config_id fourcc ∧
      ∃ t1, CreateConfigChecked_forced d h dpy va_config_id fourcc t = (va_config_id, t ++ t1) ∧
        t1.filter Event.isDestroyConfig = []) ∨
    (¬ forced_format_confirmed d h dpy va_config_id fourcc ∧
      ∃ t1, CreateConfigChecked_forced d h dpy va_config_id fourcc t
          = (VA_INVALID_ID, (t ++ t1) ++ vlc_vaapi_DestroyConfig d dpy va_config_id) ∧
        t1.filter Event.isDestroyConfig = []) := by
  unfold CreateConfigChecked_forced CreateConfigChecked_error
  simp only [hid, ne_eq, not_false_eq_true, if_true]
  by_cases h1 : (d.vaQuerySurfaceAttributes_num dpy va_config_id).1 = VA_STATUS_SUCCESS
  · by_cases h2 : h.vlc_alloc_sattribs (d.vaQuerySurfaceAttributes_num dpy va_config_id).2
        = true
    · by_cases h3 : (d.vaQuerySurfaceAttributes dpy va_config_id
          (d.vaQuerySurfaceAttributes_num dpy va_config_id).2).1 = VA_STATUS_SUCCESS
      · by_cases h4 : (d.vaQuerySurfaceAttributes dpy va_config_id
            (d.vaQuerySurfaceAttributes_num dpy va_config_id).2).2.any
              (sattrib_matches fourcc) = true
        · left
          refine ⟨⟨h1, h2, h3, (any_sattrib_matches _ _).mp h4⟩, ?_⟩
          simp only [h1, h2, h3, h4, not_true_eq_false, if_false, if_true,
            Bool.true_eq_false, List.append_assoc]
          exact ⟨_, rfl, by simp [List.filter, Event.isDestroyConfig]⟩
        · right
          refine ⟨fun hx => h4 ((any_sattrib_matches _ _).mpr hx.2.2.2), ?_⟩
          simp only [h1, h2, h3, h4, not_true_eq_false, if_false, if_true,
            Bool.true_eq_false, List.append_assoc]
          refine ⟨[Event.vaQuerySurfaceAttributes dpy va_config_id false,
            Event.vlc_alloc (d.vaQuerySurfaceAttributes_num dpy va_config_id).2,
            Event.vaQuerySurfaceAttributes dpy va_config_id true,
            Event.msg_Err Msg.config_no_forced_fourcc], ?_, ?_⟩
          · simp
          · simp [List.filter, Event.isDestroyConfig]
      · right
        refine ⟨fun hx => h3 hx.2.2.1, ?_⟩
        simp only [h1, h2, h3, not_true_eq_false, not_false_eq_true, if_false, if_true,
          Bool.true_eq_false, List.append_assoc]
        refine ⟨[Event.vaQuerySurfaceAttributes dpy va_config_id false,
            Event.vlc_alloc (d.vaQuerySurfaceAttributes_num dpy va_config_id).2,
            Event.vaQuerySurfaceAttributes dpy va_config_id true,
            Event.msg_Err Msg.config_no_forced_fourcc], ?_, ?_⟩
        · simp
        · simp [List.filter, Event.isDestroyConfig]
    · right
      have h2' : h.vlc_alloc_sattribs (d.vaQuerySurfaceAttributes_num dpy va_config_id).2
          = false := by simpa using h2
      refine ⟨fun hx => h2 hx.2.1, ?_⟩
      simp only [h1, h2', not_true_eq_false, if_false, if_true, List.append_assoc]
      refine ⟨[Event.vaQuerySurfaceAttributes dpy va_config_id false,
            Event.vlc_alloc (d.vaQuerySurfaceAttributes_num dpy va_config_id).2,
            Event.msg_Err Msg.config_no_forced_fourcc], ?_, ?_⟩
      · simp
      · simp [List.filter, Event.isDestroyConfig]
  · right
    refine ⟨fun hx => h1 hx.1, ?_⟩
    simp only [h1, not_false_eq_true, if_true, List.append_assoc]
    refine ⟨[Event.vaQuerySurfaceAttributes dpy va_config_id false,
            Event.msg_Err Msg.config_no_forced_fourcc], ?_, ?_⟩
    · simp
    · simp [List.filter, Event.isDestroyConfig]

/-- C4: in a call with a recognised forced chroma in which `vaCreateConfig` was reached
and succeeded, that is, reported success and stored a config id (an id other than
`VA_INVALID_ID`, the value the function keeps for "no config"), the created id is
returned if and only if the forced format is confirmed (both surface-attribute queries
succeed and some returned attribute is a settable pixel format of the forced
four-character code), and then `vaDestroyConfig` is not called; in every other case the
call returns `VA_INVALID_ID` and ends with its only `vaDestroyConfig`, issued on the
created id. -/
theorem CreateConfigChecked_forced_fourcc (d : Driver) (h : Host) (dpy : Nat)
    (i_profile entrypoint i_force_vlc_chroma : Int) (rt value va_config_id : Nat)
    (fourcc : Int)
    (hchroma : i_force_vlc_chroma ≠ 0)
    (hfourcc : vlc_chroma_to_vaapi i_force_vlc_chroma = some (rt, fourcc))
    (hprofile : (IsVaProfileSupported d h dpy i_profile).1 = true)
    (hentry : (IsEntrypointAvailable d h dpy i_profile entrypoint).1 = true)
    (hattr : d.vaGetConfigAttributes dpy i_profile entrypoint = (0, value))
    (hyuv : value &&& (VA_RT_FORMAT_YUV420 ||| VA_RT_FORMAT_YUV420_10BPP) ≠ 0)
    (hcreate : d.vaCreateConfig dpy i_profile entrypoint value
      = (VA_STATUS_SUCCESS, va_config_id))
    (hid : va_config_id ≠ VA_INVALID_ID) :
    ∃ ret t, vlc_vaapi_CreateConfigChecked d h dpy i_profile entrypoint i_force_vlc_chroma
        = some (ret, t) ∧
      (ret = va_config_id ↔ forced_format_confirmed d h dpy va_config_id fourcc) ∧
      (forced_format_confirmed d h dpy va_config_id fourcc →
        t.filter Event.isDestroyConfig = []) ∧
      (¬ forced_format_confirmed d h dpy va_config_id fourcc →
        ret = VA_INVALID_ID ∧
        t.filter Event.isDestroyConfig = [Event.vaDestroyConfig dpy va_config_id] ∧
        ∃ t0, t = t0 ++ vlc_vaapi_DestroyConfig d dpy va_config_id) := by
  have hf0 := vlc_chroma_to_vaapi_fourcc_ne_zero _ _ _ hfourcc
  have hp := filter_isDestroyConfig_profile d h dpy i_profile
  have he := filter_isDestroyConfig_entrypoint d h dpy i_profile entrypoint
  have hdc := filter_isDestroyConfig_DestroyConfig d dpy va_config_id
  have hne : ¬ (VA_INVALID_ID = va_config_id) := fun e => hid e.symm
  unfold vlc_vaapi_CreateConfigChecked
  simp only [hchroma, hfourcc, ne_eq, not_false_eq_true, if_true, Option.map_some']
  unfold CreateConfigChecked_checked
  simp only [hprofile, hentry, hattr, hyuv, hcreate, hf0, ne_eq, not_true_eq_false,
    if_false, Bool.true_eq_false]
  rcases CreateConfigChecked_forced_cases d h dpy va_config_id fourcc
    ((IsVaProfileSupported d h dpy i_profile).2 ++
      (IsEntrypointAvailable d h dpy i_profile entrypoint).2 ++
      [Event.vaGetConfigAttributes dpy i_profile entrypoint] ++
      [Event.vaCreateConfig dpy i_profile entrypoint
        [{ type := VAConfigAttribRTFormat, value := value }]]) hid
    with ⟨hc, t1, heq, ht1⟩ | ⟨hc, t1, heq, ht1⟩
  · refine ⟨_, _, congrArg some heq, ?_, ?_, ?_⟩
    · simp [hc]
    · intro _
      simp [List.filter_append, hp, he, ht1, List.filter, Event.isDestroyConfig]
    · intro hn
      exact absurd hc hn
  · refine ⟨_, _, congrArg some heq, ?_, ?_, ?_⟩
    · simp [hc, hne]
    · intro hx
      exact absurd hx hc
    · intro _
      refine ⟨rfl, ?_, _, rfl⟩
      rw [List.filter_append, hdc]
      simp [List.filter_append, hp, he, ht1, List.filter, Event.isDestroyConfig]

/-- Witness of `CreateConfigChecked_forced_fourcc`: the driver creates the config 7 and
lists a settable NV12 pixel format; the forced chroma is `VLC_CODEC_VAAPI_420`. -/
theorem CreateConfigChecked_forced_fourcc_witness :
    ∃ ret t, vlc_vaapi_CreateConfigChecked
        (sample_driver 1 1 7 (0, 1) (0, [pixel_format_attrib VA_FOURCC_NV12])) sample_host
        0 23 1 VLC_CODEC_VAAPI_420 = some (ret, t) ∧
      (ret = 7 ↔ forced_format_confirmed
        (sample_driver 1 1 7 (0, 1) (0, [pixel_format_attrib VA_FOURCC_NV12])) sample_host
        0 7 VA_FOURCC_NV12) ∧
      (forced_format_confirmed
        (sample_driver 1 1 7 (0, 1) (0, [pixel_format_attrib VA_FOURCC_NV12])) sample_host
        0 7 VA_FOURCC_NV12 → t.filter Event.isDestroyConfig = []) ∧
      (¬ forced_format_confirmed
        (sample_driver 1 1 7 (0, 1) (0, [pixel_format_attrib VA_FOURCC_NV12])) sample_host
        0 7 VA_FOURCC_NV12 →
        ret = VA_INVALID_ID ∧
        t.filter Event.isDestroyConfig = [Event.vaDestroyConfig 0 7] ∧
        ∃ t0, t = t0 ++ vlc_vaapi_DestroyConfig
          (sample_driver 1 1 7 (0, 1) (0, [pixel_format_attrib VA_FOURCC_NV12])) 0 7) :=
  CreateConfigChecked_forced_fourcc
    (sample_driver 1 1 7 (0, 1) (0, [pixel_format_attrib VA_FOURCC_NV12])) sample_host
    0 23 1 VLC_CODEC_VAAPI_420 VA_RT_FORMAT_YUV420 1 7 VA_FOURCC_NV12
    (by decide) (by decide) (by decide) (by decide) (by decide) (by decide) (by decide)
    (by decide)

/-- C5: the code at the failing input. The profile is supported, the entrypoint is
available, the attribute query succeeds and reports the 12-bit YUV420 layout alone, the
layout of the forced chroma `VLC_CODEC_VAAPI_420_12BPP` in the mapping table; the call
still returns `VA_INVALID_ID` and never reaches `vaCreateConfig`, the last event being
the log line of the layout test. -/
theorem CreateConfigChecked_rejects_yuv420_12_alone :
    (IsVaProfileSupported (sample_driver 1 VA_RT_FORMAT_YUV420_12 7 (0, 1)
      (0, [pixel_format_attrib VA_FOURCC_P012])) sample_host 0 23).1 = true ∧
    (IsEntrypointAvailable (sample_driver 1 VA_RT_FORMAT_YUV420_12 7 (0, 1)
      (0, [pixel_format_attrib VA_FOURCC_P012])) sample_host 0 23 1).1 = true ∧
    (sample_driver 1 VA_RT_FORMAT_YUV420_12 7 (0, 1)
      (0, [pixel_format_attrib VA_FOURCC_P012])).vaGetConfigAttributes 0 23 1
      = (VA_STATUS_SUCCESS, VA_RT_FORMAT_YUV420_12) ∧
    (vlc_chroma_to_vaapi VLC_CODEC_VAAPI_420_12BPP).map Prod.fst
      = some VA_RT_FORMAT_YUV420_12 ∧
    vlc_vaapi_CreateConfigChecked (sample_driver 1 VA_RT_FORMAT_YUV420_12 7 (0, 1)
        (0, [pixel_format_attrib VA_FOURCC_P012])) sample_host 0 23 1
        VLC_CODEC_VAAPI_420_12BPP
      = some (VA_INVALID_ID,
          [Event.vaMaxNumProfiles 0, Event.calloc 1, Event.vaQueryConfigProfiles 0,
           Event.vaMaxNumEntrypoints 0, Event.vlc_alloc 1,
           Event.vaQueryConfigEntrypoints 0 23, Event.vaGetConfigAttributes 0 23 1,
           Event.msg_Err Msg.config_no_yuv420]) := by
  refine ⟨by decide, by decide, by decide, by decide, by decide⟩

/-- C8: the code at the failing inputs. When `vaMaxNumProfiles` reports 0, the profile
probe attempts the zero-length `calloc` and, the pointer not being `NULL`, issues
`vaQueryConfigProfiles`; when the first surface-attribute query reports 0 attributes,
the factory attempts the zero-length `vlc_alloc` and issues the second query. -/
theorem probes_zero_size_not_rejected :
    IsVaProfileSupported (sample_driver 0 1 7 (0, 0) (0, [])) sample_host 0 23
      = (false, [Event.vaMaxNumProfiles 0, Event.calloc 0, Event.vaQueryConfigProfiles 0]) ∧
    vlc_vaapi_CreateConfigChecked (sample_driver 1 1 7 (0, 0) (0, [])) sample_host 0 23 1
        VLC_CODEC_VAAPI_420
      = some (VA_INVALID_ID,
          [Event.vaMaxNumProfiles 0, Event.calloc 1, Event.vaQueryConfigProfiles 0,
           Event.vaMaxNumEntrypoints 0, Event.vlc_alloc 1,
           Event.vaQueryConfigEntrypoints 0 23, Event.vaGetConfigAttributes 0 23 1,
           Event.vaCreateConfig 0 23 1 [{ type := VAConfigAttribRTFormat, value := 1 }],
           Event.vaQuerySurfaceAttributes 0 7 false, Event.vlc_alloc 0,
           Event.vaQuerySurfaceAttributes 0 7 true,
           Event.msg_Err Msg.config_no_forced_fourcc, Event.vaDestroyConfig 0 7]) := by
  refine ⟨by decide, by decide⟩

theorem vlc_chroma_to_vaapi_cases (c : Int) :
    (vlc_chroma_to_vaapi c).isSome = true ↔
      (c = VLC_CODEC_VAAPI_420 ∨ c = VLC_CODEC_VAAPI_420_10BPP
        ∨ c = VLC_CODEC_VAAPI_420_12BPP) := by
  unfold vlc_chroma_to_vaapi
  split_ifs with h1 h2 h3 <;> simp [*]

/-! ## Lemmas on the surface pool -/

theorem PoolNew_loop_all (env : PoolEnv) (vctx dpy : Nat) (fmt : video_format_t)
    (a : Nat) (rts : List Nat) (remaining : Nat) :
    ∀ (i : Nat) (s : State),
      (∀ j, i ≤ j → j < i + remaining →
        env.malloc_p_sys j = true ∧ env.picture_NewFromResource j = true) →
      PoolNew_loop env vctx dpy fmt a rts remaining i s
        = (none, s.with_pool_pics (pool_picture vctx dpy fmt a rts) i (i + remaining)) := by
  induction remaining with
  | zero =>
    intro i s _
    simp only [PoolNew_loop, State.with_pool_pics, Nat.add_zero]
    congr 1
    cases s
    simp only [State.mk.injEq, true_and, and_true]
    funext j
    have : ¬ (i ≤ j ∧ j < i) := by omega
    simp [this]
  | succ n ih =>
    intro i s hok
    have hi := hok i (le_refl i) (by omega)
    rw [PoolNew_loop]
    simp only [hi.1, hi.2, Bool.true_eq_false, if_false]
    rw [ih (i + 1) _ (fun j h1 h2 => hok j (by omega) (by omega))]
    congr 1
    simp only [State.with_pool_pics, State.mk.injEq, true_and, and_true]
    funext j
    by_cases hj : j = i
    · subst hj
      have h1 : ¬ (j + 1 ≤ j ∧ j < j + 1 + n) := by omega
      have h2 : j ≤ j ∧ j < j + (n + 1) := by omega
      simp [h1, h2, pool_picture, pool_p_sys]
    · by_cases h1 : i + 1 ≤ j ∧ j < i + 1 + n
      · have h2 : i ≤ j ∧ j < i + (n + 1) := by omega
        simp [h1, h2]
      · have h2 : ¬ (i ≤ j ∧ j < i + (n + 1)) := by omega
        simp [h1, h2, Function.update_noteq hj]

theorem PoolNew_loop_fail (env : PoolEnv) (vctx dpy : Nat) (fmt : video_format_t)
    (a : Nat) (rts : List Nat) (k : Nat)
    (hat : env.malloc_p_sys k = false ∨ env.picture_NewFromResource k = false)
    (remaining : Nat) :
    ∀ (i : Nat) (s : State), i ≤ k → k < i + remaining →
      (∀ j, i ≤ j → j < k →
        env.malloc_p_sys j = true ∧ env.picture_NewFromResource j = true) →
      PoolNew_loop env vctx dpy fmt a rts remaining i s
        = (some k, s.with_pool_pics (pool_picture vctx dpy fmt a rts) i k) := by
  induction remaining with
  | zero =>
    intro i s h1 h2 _
    omega
  | succ n ih =>
    intro i s hik hk hok
    rw [PoolNew_loop]
    by_cases hki : k = i
    · subst hki
      have hst : s.with_pool_pics (pool_picture vctx dpy fmt a rts) k k = s := by
        cases s
        simp only [State.with_pool_pics, State.mk.injEq, true_and, and_true]
        funext j
        have : ¬ (k ≤ j ∧ j < k) := by omega
        simp [this]
      rw [hst]
      rcases hat with h | h
      · simp [h]
      · by_cases hm : env.malloc_p_sys k = false
        · simp [hm]
        · simp [hm, h]
    · have hi := hok i (le_refl i) (by omega)
      simp only [hi.1, hi.2, Bool.true_eq_false, if_false]
      rw [ih (i + 1) _ (by omega) (by omega) (fun j h1 h2 => hok j (by omega) h2)]
      congr 1
      simp only [State.with_pool_pics, State.mk.injEq, true_and, and_true]
      funext j
      by_cases hj : j = i
      · subst hj
        have h1 : ¬ (j + 1 ≤ j ∧ j < k) := by omega
        have h2 : j ≤ j ∧ j < k := by omega
        simp [h1, h2, pool_picture, pool_p_sys]
      · by_cases h1 : i + 1 ≤ j ∧ j < k
        · have h2 : i ≤ j ∧ j < k := by omega
          simp [h1, h2]
        · have h2 : ¬ (i ≤ j ∧ j < k) := by omega
          simp [h1, h2, Function.update_noteq hj]

theorem picture_Release_last (s : State) (j : Nat) (p : picture_t) (q : picture_sys_t)
    (inst : pic_sys_vaapi_instance) (hp : s.pics j = some p) (hrefs : p.refs ≤ 1)
    (hctx : p.context = none) (hq : p.p_sys = some q)
    (hinst : s.instances q.instance_ = some inst) (hne : inst.pic_refcount ≠ 1) :
    picture_Release s j = some
      { s with
        instances := Function.update s.instances q.instance_
          (some { inst with pic_refcount := (inst.pic_refcount + (2 ^ 32 - 1)) % 2 ^ 32 })
        pics := Function.update s.pics j none
        trace := s.trace ++ [Event.free_p_sys j] } := by
  have hr : ¬ 1 < p.refs := by omega
  simp [picture_Release, pool_pic_destroy_cb, hp, hr, hctx, hq, hinst, hne]

theorem PoolNew_release_spec (a : Nat) (k : Nat) :
    ∀ (s : State) (inst : pic_sys_vaapi_instance) (m : Nat),
      s.instances a = some inst → inst.pic_refcount = (2 ^ 32 - m) % 2 ^ 32 →
      m + k < 2 ^ 32 →
      (∀ j < k, ∃ p q, s.pics j = some p ∧ p.refs ≤ 1 ∧ p.context = none ∧
        p.p_sys = some q ∧ q.instance_ = a) →
      ∃ s1, PoolNew_release k s = some s1 ∧
        s1.instances a = some { inst with pic_refcount := (2 ^ 32 - (m + k)) % 2 ^ 32 } ∧
        s1.trace = s.trace ++ ((List.range k).reverse.map Event.free_p_sys) ∧
        (∀ j < k, s1.pics j = none) ∧ (∀ j, k ≤ j → s1.pics j = s.pics j) ∧
        s1.vctx_refs = s.vctx_refs ∧ s1.ctxs = s.ctxs ∧ s1.next_ctx = s.next_ctx := by
  induction k with
  | zero =>
    intro s inst m hinst hc _ _
    refine ⟨s, rfl, ?_, by simp, by simp, by simp, rfl, rfl, rfl⟩
    rw [hinst, Nat.add_zero, ← hc]
  | succ n ih =>
    intro s inst m hinst hc hm hpics
    obtain ⟨p, q, hp, hrefs, hctx, hq, hqa⟩ := hpics n (Nat.lt_succ_self n)
    subst hqa
    have hne : inst.pic_refcount ≠ 1 := by rw [hc]; omega
    have hrel := picture_Release_last s n p q inst hp hrefs hctx hq hinst hne
    obtain ⟨s1, h1, h2, h3, h4, h5, h6, h7, h8⟩ :=
      ih _ { inst with pic_refcount := (inst.pic_refcount + (2 ^ 32 - 1)) % 2 ^ 32 } (m + 1)
        (show ({ s with
            instances := Function.update s.instances q.instance_
              (some { inst with
                pic_refcount := (inst.pic_refcount + (2 ^ 32 - 1)) % 2 ^ 32 })
            pics := Function.update s.pics n none
            trace := s.trace ++ [Event.free_p_sys n] } : State).instances q.instance_ = _
          by simp)
        (by simp only [hc]; omega) (by omega)
        (by
          intro j hj
          obtain ⟨p', q', hp', hr', hc', hq', ha'⟩ := hpics j (by omega)
          refine ⟨p', q', ?_, hr', hc', hq', ha'⟩
          have hjn : j ≠ n := by omega
          simp [Function.update_noteq hjn, hp'])
    refine ⟨s1, ?_, ?_, ?_, ?_, ?_, h6, h7, h8⟩
    · simp only [PoolNew_release, hrel, Option.some_bind, h1]
    · rw [h2]
      simp only [Option.some.injEq, pic_sys_vaapi_instance.mk.injEq, and_true]
      omega
    · rw [h3, List.range_succ]
      simp
    · intro j hj
      by_cases hjn : j = n
      · subst hjn
        rw [h5 j (le_refl j)]
        simp
      · exact h4 j (by omega)
    · intro j hj
      have hjn : j ≠ n := by omega
      rw [h5 j (by omega)]
      simp [Function.update_noteq hjn]

theorem PoolNew_error_pic_spec (env : PoolEnv) (dpy a k : Nat) (s : State)
    (inst : pic_sys_vaapi_instance) (hinst : s.instances a = some inst)
    (h0 : inst.pic_refcount = 0) (hk : k < 2 ^ 32)
    (hpics : ∀ j < k, ∃ p q, s.pics j = some p ∧ p.refs ≤ 1 ∧ p.context = none ∧
      p.p_sys = some q ∧ q.instance_ = a) :
    ∃ r, PoolNew_error_pic env dpy a k s = some r ∧ r.pool = none ∧
      r.render_targets = none ∧
      r.state.trace = s.trace ++ ((List.range k).reverse.map Event.free_p_sys) ++
        [Event.vaDestroySurfaces dpy inst.render_targets inst.num_render_targets] ++
        VA_CALL_log env.vaDestroySurfaces ++ [Event.free_instance a] ∧
      r.state.instances a = none ∧
      (∀ j < k, r.state.pics j = none) ∧ (∀ j, k ≤ j → r.state.pics j = s.pics j) ∧
      r.state.vctx_refs = s.vctx_refs := by
  obtain ⟨s1, h1, h2, h3, h4, h5, h6, -, -⟩ :=
    PoolNew_release_spec a k s inst 0 hinst (by rw [h0]; rfl) (by omega) hpics
  have hE : PoolNew_error_pic env dpy a k s = some
      { pool := none
        render_targets := none
        state := { s1 with
          instances := Function.update s1.instances a none
          trace := s1.trace ++
            [Event.vaDestroySurfaces dpy inst.render_targets inst.num_render_targets] ++
            VA_CALL_log env.vaDestroySurfaces ++ [Event.free_instance a] } } := by
    simp only [PoolNew_error_pic, h1, Option.some_bind, h2]
  refine ⟨_, hE, rfl, rfl, ?_, ?_, ?_, ?_, ?_⟩
  · simp [h3]
  · simp
  · exact h4
  · exact h5
  · exact h6

/-- The state in which `vlc_vaapi_PoolNew` enters its loop: the instance at address 0
with a count of 0, and the call of `vaCreateSurfaces` in the trace. -/
theorem PoolNew_unfold (env : PoolEnv) (vctx_refs : Nat → Nat) (vctx dpy N : Nat)
    (fmt : video_format_t) (rt : Nat) (fourcc : Int)
    (hfmt : vlc_chroma_to_vaapi fmt.i_chroma = some (rt, fourcc))
    (hmalloc : env.malloc_instance = true)
    (hcreate : env.vaCreateSurfaces.1 = VA_STATUS_SUCCESS) :
    vlc_vaapi_PoolNew env vctx_refs vctx dpy N fmt =
      match PoolNew_loop env vctx dpy fmt 0 ((List.range N).map env.vaCreateSurfaces.2) N 0
          { State.init vctx_refs with
            instances := Function.update (State.init vctx_refs).instances 0
              (some { pic_refcount := 0, num_render_targets := N,
                      render_targets := (List.range N).map env.vaCreateSurfaces.2 })
            trace := [Event.vaCreateSurfaces dpy rt fmt.i_visible_width fmt.i_visible_height
              N [pixel_format_attrib fourcc]] } with
      | (some i, s2) => PoolNew_error_pic env dpy 0 i s2
      | (none, s2) =>
        if env.picture_pool_New = false then PoolNew_error_pic env dpy 0 N s2
        else
          some
            { pool := some { pics := List.range N }
              render_targets := some 0
              state := { s2 with
                instances := Function.update s2.instances 0
                  (some { pic_refcount := N % 2 ^ 32, num_render_targets := N,
                          render_targets := (List.range N).map env.vaCreateSurfaces.2 }) } } := by
  simp only [vlc_vaapi_PoolNew, hfmt, hmalloc, hcreate, ne_eq, not_true_eq_false, if_false,
    Bool.true_eq_false, State.init, List.nil_append, pixel_format_attrib]

theorem PoolNew_failure_spec (env : PoolEnv) (vctx_refs : Nat → Nat) (vctx dpy N : Nat)
    (fmt : video_format_t) (k rt : Nat) (fourcc : Int) (hN32 : N < 2 ^ 32)
    (hfmt : vlc_chroma_to_vaapi fmt.i_chroma = some (rt, fourcc))
    (hmalloc : env.malloc_instance = true)
    (hcreate : env.vaCreateSurfaces.1 = VA_STATUS_SUCCESS)
    (hbefore : ∀ j < k,
      env.malloc_p_sys j = true ∧ env.picture_NewFromResource j = true)
    (hfail : (k < N ∧
        (env.malloc_p_sys k = false ∨ env.picture_NewFromResource k = false)) ∨
      (k = N ∧ env.picture_pool_New = false)) :
    ∃ r, vlc_vaapi_PoolNew env vctx_refs vctx dpy N fmt = some r ∧ r.pool = none ∧
      r.render_targets = none ∧
      r.state.trace =
        [Event.vaCreateSurfaces dpy rt fmt.i_visible_width fmt.i_visible_height N
          [pixel_format_attrib fourcc]] ++
        ((List.range k).reverse.map Event.free_p_sys) ++
        [Event.vaDestroySurfaces dpy ((List.range N).map env.vaCreateSurfaces.2) N] ++
        VA_CALL_log env.vaDestroySurfaces ++ [Event.free_instance 0] ∧
      r.state.instances 0 = none ∧ (∀ j, r.state.pics j = none) ∧
      r.state.vctx_refs = vctx_refs := by
  rw [PoolNew_unfold env vctx_refs vctx dpy N fmt rt fourcc hfmt hmalloc hcreate]
  have hkN : k ≤ N := by rcases hfail with h | h <;> omega
  have key : ∀ s2 : State, s2 = (State.with_pool_pics
      { State.init vctx_refs with
        instances := Function.update (State.init vctx_refs).instances 0
          (some { pic_refcount := 0, num_render_targets := N,
                  render_targets := (List.range N).map env.vaCreateSurfaces.2 })
        trace := [Event.vaCreateSurfaces dpy rt fmt.i_visible_width fmt.i_visible_height
          N [pixel_format_attrib fourcc]] }
      (pool_picture vctx dpy fmt 0 ((List.range N).map env.vaCreateSurfaces.2)) 0 k) →
      ∃ r, PoolNew_error_pic env dpy 0 k s2 = some r ∧ r.pool = none ∧
        r.render_targets = none ∧
        r.state.trace =
          [Event.vaCreateSurfaces dpy rt fmt.i_visible_width fmt.i_visible_height N
            [pixel_format_attrib fourcc]] ++
          ((List.range k).reverse.map Event.free_p_sys) ++
          [Event.vaDestroySurfaces dpy ((List.range N).map env.vaCreateSurfaces.2) N] ++
          VA_CALL_log env.vaDestroySurfaces ++ [Event.free_instance 0] ∧
        r.state.instances 0 = none ∧ (∀ j, r.state.pics j = none) ∧
        r.state.vctx_refs = vctx_refs := by
    intro s2 hs2
    obtain ⟨r, h1, h2, h3, h4, h5, h6, h7, h8⟩ :=
      PoolNew_error_pic_spec env dpy 0 k s2
        { pic_refcount := 0, num_render_targets := N,
          render_targets := (List.range N).map env.vaCreateSurfaces.2 }
        (by rw [hs2]; simp [State.with_pool_pics]) rfl (by omega)
        (by
          intro j hj
          rw [hs2]
          refine ⟨pool_picture vctx dpy fmt 0 ((List.range N).map env.vaCreateSurfaces.2) j,
            _, ?_, ?_, rfl, rfl, rfl⟩
          · simp [State.with_pool_pics, hj]
          · simp [pool_picture])
    refine ⟨r, h1, h2, h3, ?_, h5, ?_, ?_⟩
    · rw [h4, hs2]
      simp [State.with_pool_pics]
    · intro j
      by_cases hj : j < k
      · exact h6 j hj
      · rw [h7 j (by omega), hs2]
        simp [State.with_pool_pics, hj, State.init]
    · rw [h8, hs2]
      simp [State.with_pool_pics, State.init]
  rcases hfail with ⟨hk, hat⟩ | ⟨hk, hpool⟩
  · rw [PoolNew_loop_fail env vctx dpy fmt 0 _ k hat N 0 _ (Nat.zero_le k) (by omega)
      (fun j _ h2 => hbefore j h2)]
    exact key _ rfl
  · subst hk
    have hall := PoolNew_loop_all env vctx dpy fmt 0
      ((List.range k).map env.vaCreateSurfaces.2) k 0
      { State.init vctx_refs with
        instances := Function.update (State.init vctx_refs).instances 0
          (some { pic_refcount := 0, num_render_targets := k,
                  render_targets := (List.range k).map env.vaCreateSurfaces.2 })
        trace := [Event.vaCreateSurfaces dpy rt fmt.i_visible_width fmt.i_visible_height
          k [pixel_format_attrib fourcc]] }
      (fun j _ h2 => hbefore j (by omega))
    rw [Nat.zero_add] at hall
    rw [hall]
    simp only [hpool, if_true]
    exact key _ rfl

theorem PoolNew_success_spec (env : PoolEnv) (vctx_refs : Nat → Nat) (vctx dpy N : Nat)
    (fmt : video_format_t) (rt : Nat) (fourcc : Int) (hN32 : N < 2 ^ 32)
    (hfmt : vlc_chroma_to_vaapi fmt.i_chroma = some (rt, fourcc))
    (hmalloc : env.malloc_instance = true)
    (hcreate : env.vaCreateSurfaces.1 = VA_STATUS_SUCCESS)
    (hall : ∀ j < N, env.malloc_p_sys j = true ∧ env.picture_NewFromResource j = true)
    (hpool : env.picture_pool_New = true) :
    ∃ r, vlc_vaapi_PoolNew env vctx_refs vctx dpy N fmt = some r ∧
      r.pool = some { pics := List.range N } ∧ r.render_targets = some 0 ∧
      r.state.instances 0 = some
        { pic_refcount := N, num_render_targets := N,
          render_targets := (List.range N).map env.vaCreateSurfaces.2 } ∧
      (∀ j, r.state.pics j = if j < N then
          some (pool_picture vctx dpy fmt 0 ((List.range N).map env.vaCreateSurfaces.2) j)
        else none) ∧
      r.state.trace = [Event.vaCreateSurfaces dpy rt fmt.i_visible_width
        fmt.i_visible_height N [pixel_format_attrib fourcc]] ∧
      r.state.vctx_refs = vctx_refs := by
  rw [PoolNew_unfold env vctx_refs vctx dpy N fmt rt fourcc hfmt hmalloc hcreate]
  have hloop := PoolNew_loop_all env vctx dpy fmt 0
    ((List.range N).map env.vaCreateSurfaces.2) N 0
    { State.init vctx_refs with
      instances := Function.update (State.init vctx_refs).instances 0
        (some { pic_refcount := 0, num_render_targets := N,
                render_targets := (List.range N).map env.vaCreateSurfaces.2 })
      trace := [Event.vaCreateSurfaces dpy rt fmt.i_visible_width fmt.i_visible_height
        N [pixel_format_attrib fourcc]] }
    (fun j _ h2 => hall j (by omega))
  rw [Nat.zero_add] at hloop
  rw [hloop]
  simp only [hpool, Bool.true_eq_false, if_false]
  refine ⟨_, rfl, rfl, rfl, ?_, ?_, rfl, rfl⟩
  · have h32 : N % 4294967296 = N := Nat.mod_eq_of_lt (by omega)
    simp [State.with_pool_pics, h32]
  · intro j
    simp [State.with_pool_pics, State.init]

theorem PoolNew_pool_isSome (env : PoolEnv) (vctx_refs : Nat → Nat) (vctx dpy N : Nat)
    (fmt : video_format_t) (r : PoolNewResult) (hN32 : N < 2 ^ 32)
    (hr : vlc_vaapi_PoolNew env vctx_refs vctx dpy N fmt = some r)
    (hp : r.pool.isSome = true) :
    (∃ rt fourcc, vlc_chroma_to_vaapi fmt.i_chroma = some (rt, fourcc)) ∧
    env.malloc_instance = true ∧ env.vaCreateSurfaces.1 = VA_STATUS_SUCCESS ∧
    (∀ j < N, env.malloc_p_sys j = true ∧ env.picture_NewFromResource j = true) ∧
    env.picture_pool_New = true := by
  cases hfmt : vlc_chroma_to_vaapi fmt.i_chroma with
  | none => simp [vlc_vaapi_PoolNew, hfmt] at hr
  | some pr =>
    obtain ⟨rt, fourcc⟩ := pr
    have hmalloc : env.malloc_instance = true := by
      by_contra hm
      have hm' : env.malloc_instance = false := by simpa using hm
      simp only [vlc_vaapi_PoolNew, hfmt, hm', if_true, Option.some.injEq] at hr
      rw [← hr] at hp
      simp at hp
    have hcreate : env.vaCreateSurfaces.1 = VA_STATUS_SUCCESS := by
      by_contra hc
      simp only [vlc_vaapi_PoolNew, hfmt, hmalloc, hc, ne_eq, not_false_eq_true, if_true,
        Bool.true_eq_false, if_false, Option.some.injEq] at hr
      rw [← hr] at hp
      simp at hp
    have hnofail : ∀ k, ¬ ((∀ j < k,
        env.malloc_p_sys j = true ∧ env.picture_NewFromResource j = true) ∧
        ((k < N ∧ (env.malloc_p_sys k = false ∨ env.picture_NewFromResource k = false)) ∨
          (k = N ∧ env.picture_pool_New = false))) := by
      rintro k ⟨hb, hf⟩
      obtain ⟨r1, h1, h2, -⟩ := PoolNew_failure_spec env vctx_refs vctx dpy N fmt k rt fourcc
        hN32 hfmt hmalloc hcreate hb hf
      rw [hr] at h1
      cases h1
      rw [h2] at hp
      simp at hp
    have hall : ∀ j < N,
        env.malloc_p_sys j = true ∧ env.picture_NewFromResource j = true := by
      by_contra hne
      push_neg at hne
      have hex : ∃ k, k < N ∧
          ¬ (env.malloc_p_sys k = true ∧ env.picture_NewFromResource k = true) := by
        obtain ⟨j, hj, hj2⟩ := hne
        exact ⟨j, hj, fun h => hj2 h.1 h.2⟩
      classical
      have hk := Nat.find_spec hex
      have hmin := fun j (hj : j < Nat.find hex) => Nat.find_min hex hj
      refine hnofail (Nat.find hex) ⟨?_, Or.inl ⟨hk.1, ?_⟩⟩
      · intro j hj
        have := hmin j hj
        by_contra hc
        exact this ⟨by omega, hc⟩
      · by_contra hc
        push_neg at hc
        exact hk.2 ⟨by simpa using hc.1, by simpa using hc.2⟩
    refine ⟨⟨rt, fourcc, rfl⟩, hmalloc, hcreate, hall, ?_⟩
    by_contra hpn
    exact hnofail N ⟨hall, Or.inr ⟨rfl, by simpa using hpn⟩⟩

theorem PoolNew_first_failure (env : PoolEnv) (N : Nat)
    (h : ¬ ((∀ j < N, env.malloc_p_sys j = true ∧ env.picture_NewFromResource j = true) ∧
      env.picture_pool_New = true)) :
    ∃ k, (∀ j < k, env.malloc_p_sys j = true ∧ env.picture_NewFromResource j = true) ∧
      ((k < N ∧ (env.malloc_p_sys k = false ∨ env.picture_NewFromResource k = false)) ∨
        (k = N ∧ env.picture_pool_New = false)) := by
  by_cases hall : ∀ j < N,
      env.malloc_p_sys j = true ∧ env.picture_NewFromResource j = true
  · refine ⟨N, hall, Or.inr ⟨rfl, ?_⟩⟩
    by_contra hp
    exact h ⟨hall, by simpa using hp⟩
  · push_neg at hall
    have hex : ∃ k, k < N ∧
        ¬ (env.malloc_p_sys k = true ∧ env.picture_NewFromResource k = true) := by
      obtain ⟨j, hj, hj2⟩ := hall
      exact ⟨j, hj, fun h => hj2 h.1 h.2⟩
    classical
    have hk := Nat.find_spec hex
    have hmin := fun j (hj : j < Nat.find hex) => Nat.find_min hex hj
    refine ⟨Nat.find hex, ?_, Or.inl ⟨hk.1, ?_⟩⟩
    · intro j hj
      have := hmin j hj
      by_contra hc
      exact this ⟨by omega, hc⟩
    · by_contra hc
      push_neg at hc
      exact hk.2 ⟨by simpa using hc.1, by simpa using hc.2⟩

theorem filter_isDestroySurfaces_free_p_sys (l : List Nat) :
    (l.map Event.free_p_sys).filter Event.isDestroySurfaces = [] := by
  rw [List.filter_eq_nil_iff]
  intro e he
  obtain ⟨j, -, rfl⟩ := List.mem_map.mp he
  simp [Event.isDestroySurfaces]

theorem filter_isFreeInstance_free_p_sys (l : List Nat) :
    (l.map Event.free_p_sys).filter Event.isFreeInstance = [] := by
  rw [List.filter_eq_nil_iff]
  intro e he
  obtain ⟨j, -, rfl⟩ := List.mem_map.mp he
  simp [Event.isFreeInstance]

theorem filter_isDestroySurfaces_VA_CALL_log (status : Int) :
    (VA_CALL_log status).filter Event.isDestroySurfaces = [] := by
  unfold VA_CALL_log
  split_ifs <;> simp [Event.isDestroySurfaces]

theorem filter_isFreeInstance_VA_CALL_log (status : Int) :
    (VA_CALL_log status).filter Event.isFreeInstance = [] := by
  unfold VA_CALL_log
  split_ifs <;> simp [Event.isFreeInstance]

theorem run_pool_pic_destroy_cb_spec (a dpy n : Nat) (rts : List Nat) :
    ∀ (l : List Nat) (s : State) (c : Nat), l.Nodup →
      (∀ j ∈ l, ∃ p q, s.pics j = some p ∧ p.p_sys = some q ∧ q.instance_ = a ∧
        q.ctx.ctx.va_dpy = dpy) →
      s.instances a = some
        { pic_refcount := c, num_render_targets := n, render_targets := rts } →
      l.length ≤ c → c < 2 ^ 32 →
      ∃ s1, run_pool_pic_destroy_cb l s = some s1 ∧
        (l.length < c →
          s1.instances a = some
            { pic_refcount := c - l.length, num_render_targets := n,
              render_targets := rts } ∧
          s1.trace.filter Event.isDestroySurfaces = s.trace.filter Event.isDestroySurfaces ∧
          s1.trace.filter Event.isFreeInstance = s.trace.filter Event.isFreeInstance) ∧
        (l.length = c → 0 < c →
          s1.instances a = none ∧
          s1.trace.filter Event.isDestroySurfaces =
            s.trace.filter Event.isDestroySurfaces ++ [Event.vaDestroySurfaces dpy rts n] ∧
          s1.trace.filter Event.isFreeInstance =
            s.trace.filter Event.isFreeInstance ++ [Event.free_instance a]) := by
  intro l
  induction l with
  | nil =>
    intro s c _ _ hinst _ _
    refine ⟨s, rfl, ?_, ?_⟩
    · intro _
      exact ⟨by simpa using hinst, rfl, rfl⟩
    · intro h0 hc
      simp at h0
      omega
  | cons j rest ih =>
    intro s c hnd hpics hinst hlen hc32
    obtain ⟨p, q, hp, hq, hqa, hqd⟩ := hpics j (List.mem_cons_self j rest)
    subst hqa
    have hjrest : j ∉ rest := (List.nodup_cons.mp hnd).1
    have hrestnd : rest.Nodup := (List.nodup_cons.mp hnd).2
    simp only [List.length_cons] at hlen
    by_cases hc1 : c = 1
    · subst hc1
      have hrest : rest = [] := List.length_eq_zero.mp (by omega)
      subst hrest
      simp only [run_pool_pic_destroy_cb, pool_pic_destroy_cb, hp, hq, hinst, if_true,
        Option.some_bind]
      refine ⟨_, rfl, ?_, ?_⟩
      · intro h
        simp at h
      · intro _ _
        refine ⟨by simp, ?_, ?_⟩
        · simp [List.filter_append, Event.isDestroySurfaces, hqd]
        · simp [List.filter_append, Event.isFreeInstance]
    · have hstep : pool_pic_destroy_cb s j = some
          { s with
            instances := Function.update s.instances q.instance_
              (some { pic_refcount := c - 1, num_render_targets := n,
                      render_targets := rts })
            pics := Function.update s.pics j (some { p with p_sys := none })
            trace := s.trace ++ [Event.free_p_sys j] } := by
        have hmod : (c + (2 ^ 32 - 1)) % 2 ^ 32 = c - 1 := by omega
        simp only [pool_pic_destroy_cb, hp, hq, hinst, hc1, if_false, hmod]
      obtain ⟨s1, h1, h2, h3⟩ := ih _ (c - 1) hrestnd
        (by
          intro i hi
          obtain ⟨p', q', hp', hq', ha', hd'⟩ := hpics i (List.mem_cons_of_mem j hi)
          have hij : i ≠ j := fun h => hjrest (h ▸ hi)
          exact ⟨p', q', by simp [Function.update_noteq hij, hp'], hq', ha', hd'⟩)
        (show ({ s with
            instances := Function.update s.instances q.instance_
              (some { pic_refcount := c - 1, num_render_targets := n,
                      render_targets := rts })
            pics := Function.update s.pics j (some { p with p_sys := none })
            trace := s.trace ++ [Event.free_p_sys j] } : State).instances q.instance_ = _
          by simp)
        (by omega) (by omega)
      refine ⟨s1, by simp only [run_pool_pic_destroy_cb, hstep, Option.some_bind, h1], ?_, ?_⟩
      · intro hlt
        simp only [List.length_cons] at hlt
        obtain ⟨e1, e2, e3⟩ := h2 (by omega)
        refine ⟨?_, ?_, ?_⟩
        · rw [e1]
          simp only [List.length_cons, Option.some.injEq, pic_sys_vaapi_instance.mk.injEq,
            and_true]
          omega
        · rw [e2]
          simp [List.filter_append, Event.isDestroySurfaces]
        · rw [e3]
          simp [List.filter_append, Event.isFreeInstance]
      · intro heq hpos
        simp only [List.length_cons] at heq
        obtain ⟨e1, e2, e3⟩ := h3 (by omega) (by omega)
        refine ⟨e1, ?_, ?_⟩
        · rw [e2]
          simp [List.filter_append, Event.isDestroySurfaces]
        · rw [e3]
          simp [List.filter_append, Event.isFreeInstance]

/-! ## Properties of the surface pool -/

/-- C1: for a count `N ≥ 1` (within `unsigned`), a format of recognised chroma and every
answer of the driver, of the allocator and of the picture core, `vlc_vaapi_PoolNew`
returns. Either it returns a pool over `N` distinct live pictures, `*render_targets` is
the array of the instance, which holds exactly the `N` surface ids the driver wrote, the
count of the instance is `N` and no surface was destroyed; or it returns `NULL`, stores
nothing in `*render_targets`, the instance is gone, and `vaDestroySurfaces` was issued
never if the instance could not be allocated or `vaCreateSurfaces` failed, and exactly
once, for all `N` surfaces, on every later failure. -/
theorem PoolNew_pool_or_no_surface_left (env : PoolEnv) (vctx_refs : Nat → Nat)
    (vctx dpy N : Nat) (fmt : video_format_t) (_hN : 1 ≤ N) (hN32 : N < 2 ^ 32)
    (hfmt : (vlc_chroma_to_vaapi fmt.i_chroma).isSome = true) :
    ∃ r, vlc_vaapi_PoolNew env vctx_refs vctx dpy N fmt = some r ∧
      ((∃ pool inst, r.pool = some pool ∧ pool.pics.length = N ∧ pool.pics.Nodup ∧
          (∀ pic ∈ pool.pics, (r.state.pics pic).isSome = true) ∧
          r.render_targets = some 0 ∧ r.state.instances 0 = some inst ∧
          inst.render_targets = (List.range N).map env.vaCreateSurfaces.2 ∧
          inst.render_targets.length = N ∧ inst.num_render_targets = N ∧
          inst.pic_refcount = N ∧
          env.malloc_instance = true ∧ env.vaCreateSurfaces.1 = VA_STATUS_SUCCESS ∧
          r.state.trace.filter Event.isDestroySurfaces = []) ∨
       (r.pool = none ∧ r.render_targets = none ∧ r.state.instances 0 = none ∧
          ((env.malloc_instance = false ∨ env.vaCreateSurfaces.1 ≠ VA_STATUS_SUCCESS) →
            r.state.trace.filter Event.isDestroySurfaces = []) ∧
          ((env.malloc_instance = true ∧ env.vaCreateSurfaces.1 = VA_STATUS_SUCCESS) →
            r.state.trace.filter Event.isDestroySurfaces =
              [Event.vaDestroySurfaces dpy ((List.range N).map env.vaCreateSurfaces.2) N]))) := by
  obtain ⟨⟨rt, fourcc⟩, hch⟩ := Option.isSome_iff_exists.mp hfmt
  by_cases hmalloc : env.malloc_instance = true
  · by_cases hcreate : env.vaCreateSurfaces.1 = VA_STATUS_SUCCESS
    · by_cases hok : (∀ j < N,
          env.malloc_p_sys j = true ∧ env.picture_NewFromResource j = true) ∧
          env.picture_pool_New = true
      · obtain ⟨r, h1, h2, h3, h4, h5, h6, -⟩ := PoolNew_success_spec env vctx_refs vctx dpy
          N fmt rt fourcc hN32 hch hmalloc hcreate hok.1 hok.2
        refine ⟨r, h1, Or.inl ⟨_, _, h2, by simp, List.nodup_range N, ?_, h3, h4, rfl,
          by simp, rfl, rfl, hmalloc, hcreate, ?_⟩⟩
        · intro pic hpic
          have hlt : pic < N := List.mem_range.mp hpic
          rw [h5 pic]
          simp [hlt]
        · rw [h6]
          simp [Event.isDestroySurfaces]
      · obtain ⟨k, hb, hf⟩ := PoolNew_first_failure env N hok
        obtain ⟨r, h1, h2, h3, h4, h5, -, -⟩ := PoolNew_failure_spec env vctx_refs vctx dpy N
          fmt k rt fourcc hN32 hch hmalloc hcreate hb hf
        refine ⟨r, h1, Or.inr ⟨h2, h3, h5, ?_, ?_⟩⟩
        · rintro (h | h)
          · rw [hmalloc] at h
            cases h
          · exact absurd hcreate h
        · intro _
          rw [h4]
          simp [List.filter_append, filter_isDestroySurfaces_free_p_sys,
            filter_isDestroySurfaces_VA_CALL_log, Event.isDestroySurfaces]
    · simp only [vlc_vaapi_PoolNew, hch, hmalloc, hcreate, ne_eq, not_false_eq_true,
        if_true, Bool.true_eq_false, if_false]
      refine ⟨_, rfl, Or.inr ⟨rfl, rfl, by simp, ?_, ?_⟩⟩
      · intro _
        simp [State.init, List.filter_append, filter_isDestroySurfaces_VA_CALL_log,
          Event.isDestroySurfaces]
      · rintro ⟨-, h⟩
        exact h.elim
  · have hm : env.malloc_instance = false := by simpa using hmalloc
    simp only [vlc_vaapi_PoolNew, hch, hm, if_true]
    refine ⟨_, rfl, Or.inr ⟨rfl, rfl, by simp [State.init], ?_, ?_⟩⟩
    · intro _
      simp [State.init]
    · rintro ⟨h, -⟩
      cases h

/-- Witness of `PoolNew_pool_or_no_surface_left`: 3 pictures in `sample_env`. -/
theorem PoolNew_pool_or_no_surface_left_witness :
    ∃ r, vlc_vaapi_PoolNew sample_env (fun _ => 1) 9 5 3 sample_fmt = some r ∧
      ((∃ pool inst, r.pool = some pool ∧ pool.pics.length = 3 ∧ pool.pics.Nodup ∧
          (∀ pic ∈ pool.pics, (r.state.pics pic).isSome = true) ∧
          r.render_targets = some 0 ∧ r.state.instances 0 = some inst ∧
          inst.render_targets = (List.range 3).map sample_env.vaCreateSurfaces.2 ∧
          inst.render_targets.length = 3 ∧ inst.num_render_targets = 3 ∧
          inst.pic_refcount = 3 ∧
          sample_env.malloc_instance = true ∧
          sample_env.vaCreateSurfaces.1 = VA_STATUS_SUCCESS ∧
          r.state.trace.filter Event.isDestroySurfaces = []) ∨
       (r.pool = none ∧ r.render_targets = none ∧ r.state.instances 0 = none ∧
          ((sample_env.malloc_instance = false ∨
              sample_env.vaCreateSurfaces.1 ≠ VA_STATUS_SUCCESS) →
            r.state.trace.filter Event.isDestroySurfaces = []) ∧
          ((sample_env.malloc_instance = true ∧
              sample_env.vaCreateSurfaces.1 = VA_STATUS_SUCCESS) →
            r.state.trace.filter Event.isDestroySurfaces =
              [Event.vaDestroySurfaces 5 ((List.range 3).map sample_env.vaCreateSurfaces.2)
                3]))) :=
  PoolNew_pool_or_no_surface_left sample_env (fun _ => 1) 9 5 3 sample_fmt (by decide)
    (by decide) (by decide)

/-- C10: for `N ≥ 1`, when `vaCreateSurfaces` succeeded and the construction fails at
index `k < N` (or the pool cannot be built, `k = N`) after `k` pictures were built,
`vlc_vaapi_PoolNew` returns `NULL` and its trace is: the call of `vaCreateSurfaces`, the
release of exactly the pictures `k - 1` down to `0` with no teardown among them, one
`vaDestroySurfaces` for all `N` surfaces, then the release of the instance, once; no
picture is left. -/
theorem PoolNew_partial_failure (env : PoolEnv) (vctx_refs : Nat → Nat) (vctx dpy N : Nat)
    (fmt : video_format_t) (k rt : Nat) (fourcc : Int) (_hN : 1 ≤ N) (hN32 : N < 2 ^ 32)
    (hfmt : vlc_chroma_to_vaapi fmt.i_chroma = some (rt, fourcc))
    (hmalloc : env.malloc_instance = true)
    (hcreate : env.vaCreateSurfaces.1 = VA_STATUS_SUCCESS)
    (hbefore : ∀ j < k,
      env.malloc_p_sys j = true ∧ env.picture_NewFromResource j = true)
    (hfail : (k < N ∧
        (env.malloc_p_sys k = false ∨ env.picture_NewFromResource k = false)) ∨
      (k = N ∧ env.picture_pool_New = false)) :
    ∃ r, vlc_vaapi_PoolNew env vctx_refs vctx dpy N fmt = some r ∧ r.pool = none ∧
      r.state.trace =
        [Event.vaCreateSurfaces dpy rt fmt.i_visible_width fmt.i_visible_height N
          [pixel_format_attrib fourcc]] ++
        ((List.range k).reverse.map Event.free_p_sys) ++
        [Event.vaDestroySurfaces dpy ((List.range N).map env.vaCreateSurfaces.2) N] ++
        VA_CALL_log env.vaDestroySurfaces ++ [Event.free_instance 0] ∧
      r.state.trace.filter Event.isDestroySurfaces =
        [Event.vaDestroySurfaces dpy ((List.range N).map env.vaCreateSurfaces.2) N] ∧
      r.state.trace.filter Event.isFreeInstance = [Event.free_instance 0] ∧
      r.state.instances 0 = none ∧ (∀ j, r.state.pics j = none) := by
  obtain ⟨r, h1, h2, -, h4, h5, h6, -⟩ := PoolNew_failure_spec env vctx_refs vctx dpy N fmt k
    rt fourcc hN32 hfmt hmalloc hcreate hbefore hfail
  refine ⟨r, h1, h2, h4, ?_, ?_, h5, h6⟩
  · rw [h4]
    simp [List.filter_append, filter_isDestroySurfaces_free_p_sys,
      filter_isDestroySurfaces_VA_CALL_log, Event.isDestroySurfaces]
  · rw [h4]
    simp [List.filter_append, filter_isFreeInstance_free_p_sys,
      filter_isFreeInstance_VA_CALL_log, Event.isFreeInstance]

/-- Witness of `PoolNew_partial_failure`: 4 pictures asked, the construction of
`pics[2]` fails. -/
theorem PoolNew_partial_failure_witness :
    ∃ r, vlc_vaapi_PoolNew (sample_env_fail_at 2) (fun _ => 1) 9 5 4 sample_fmt = some r ∧
      r.pool = none ∧
      r.state.trace =
        [Event.vaCreateSurfaces 5 VA_RT_FORMAT_YUV420 sample_fmt.i_visible_width
          sample_fmt.i_visible_height 4 [pixel_format_attrib VA_FOURCC_NV12]] ++
        ((List.range 2).reverse.map Event.free_p_sys) ++
        [Event.vaDestroySurfaces 5
          ((List.range 4).map (sample_env_fail_at 2).vaCreateSurfaces.2) 4] ++
        VA_CALL_log (sample_env_fail_at 2).vaDestroySurfaces ++ [Event.free_instance 0] ∧
      r.state.trace.filter Event.isDestroySurfaces =
        [Event.vaDestroySurfaces 5
          ((List.range 4).map (sample_env_fail_at 2).vaCreateSurfaces.2) 4] ∧
      r.state.trace.filter Event.isFreeInstance = [Event.free_instance 0] ∧
      r.state.instances 0 = none ∧ (∀ j, r.state.pics j = none) :=
  PoolNew_partial_failure (sample_env_fail_at 2) (fun _ => 1) 9 5 4 sample_fmt 2
    VA_RT_FORMAT_YUV420 VA_FOURCC_NV12 (by decide) (by decide) (by decide) rfl rfl
    (by decide) (Or.inl ⟨by decide, Or.inr (by decide)⟩)

/-- C2: after a successful `vlc_vaapi_PoolNew` for `N ≥ 1` pictures, whatever the order
`l` (a permutation of the `N` pictures) in which `pool_pic_destroy_cb` runs once on
each, the first `k` runs all return; for `k < N` they leave the count at `N - k`, with no
`vaDestroySurfaces` and no release of the instance in the trace; for `k = N` the trace
holds exactly one `vaDestroySurfaces`, for all `N` surfaces, and exactly one release of
the instance, which is gone. -/
theorem pool_pic_destroy_cb_any_order (env : PoolEnv) (vctx_refs : Nat → Nat)
    (vctx dpy N : Nat) (fmt : video_format_t) (r : PoolNewResult) (l : List Nat) (k : Nat)
    (hN : 1 ≤ N) (hN32 : N < 2 ^ 32)
    (hr : vlc_vaapi_PoolNew env vctx_refs vctx dpy N fmt = some r)
    (hpool : r.pool.isSome = true) (hperm : l.Perm (List.range N)) (hk : k ≤ N) :
    ∃ s, run_pool_pic_destroy_cb (l.take k) r.state = some s ∧
      (k < N →
        s.instances 0 = some
          { pic_refcount := N - k, num_render_targets := N,
            render_targets := (List.range N).map env.vaCreateSurfaces.2 } ∧
        s.trace.filter Event.isDestroySurfaces = [] ∧
        s.trace.filter Event.isFreeInstance = []) ∧
      (k = N →
        s.instances 0 = none ∧
        s.trace.filter Event.isDestroySurfaces =
          [Event.vaDestroySurfaces dpy ((List.range N).map env.vaCreateSurfaces.2) N] ∧
        s.trace.filter Event.isFreeInstance = [Event.free_instance 0]) := by
  obtain ⟨⟨rt, fourcc, hch⟩, hmalloc, hcreate, hall, hpn⟩ :=
    PoolNew_pool_isSome env vctx_refs vctx dpy N fmt r hN32 hr hpool
  obtain ⟨r1, h1, -, -, h4, h5, h6, -⟩ := PoolNew_success_spec env vctx_refs vctx dpy N fmt rt
    fourcc hN32 hch hmalloc hcreate hall hpn
  rw [hr] at h1
  cases h1
  have hlen : l.length = N := by rw [hperm.length_eq, List.length_range]
  have htake : (l.take k).length = k := by rw [List.length_take, hlen]; omega
  have hnd : (l.take k).Nodup :=
    ((hperm.nodup_iff).mpr (List.nodup_range N)).sublist (List.take_sublist k l)
  obtain ⟨s, hs, hlt, heq⟩ := run_pool_pic_destroy_cb_spec 0 dpy N
    ((List.range N).map env.vaCreateSurfaces.2) (l.take k) r.state N hnd
    (by
      intro j hj
      have hjN : j < N := List.mem_range.mp ((hperm.mem_iff).mp (List.mem_of_mem_take hj))
      refine ⟨pool_picture vctx dpy fmt 0 ((List.range N).map env.vaCreateSurfaces.2) j,
        pool_p_sys vctx dpy 0 ((List.range N).map env.vaCreateSurfaces.2) j,
        ?_, rfl, rfl, rfl⟩
      rw [h5 j]
      simp [hjN])
    h4 (by omega) hN32
  rw [htake] at hlt heq
  refine ⟨s, hs, ?_, ?_⟩
  · intro hkN
    obtain ⟨e1, e2, e3⟩ := hlt hkN
    refine ⟨e1, ?_, ?_⟩
    · rw [e2, h6]
      simp [Event.isDestroySurfaces]
    · rw [e3, h6]
      simp [Event.isFreeInstance]
  · intro hkN
    obtain ⟨e1, e2, e3⟩ := heq hkN (by omega)
    refine ⟨e1, ?_, ?_⟩
    · rw [e2, h6]
      simp [Event.isDestroySurfaces]
    · rw [e3, h6]
      simp [Event.isFreeInstance]

/-- Witness of `pool_pic_destroy_cb_any_order`: the 3 pictures of `sample_pool`,
released in the order 1, 2, 0. -/
theorem pool_pic_destroy_cb_any_order_witness :
    ∃ s, run_pool_pic_destroy_cb ([1, 2, 0].take 3) sample_pool.state = some s ∧
      (3 < 3 →
        s.instances 0 = some
          { pic_refcount := 3 - 3, num_render_targets := 3,
            render_targets := (List.range 3).map sample_env.vaCreateSurfaces.2 } ∧
        s.trace.filter Event.isDestroySurfaces = [] ∧
        s.trace.filter Event.isFreeInstance = []) ∧
      (3 = 3 →
        s.instances 0 = none ∧
        s.trace.filter Event.isDestroySurfaces =
          [Event.vaDestroySurfaces 5 ((List.range 3).map sample_env.vaCreateSurfaces.2) 3] ∧
        s.trace.filter Event.isFreeInstance = [Event.free_instance 0]) :=
  pool_pic_destroy_cb_any_order sample_env (fun _ => 1) 9 5 3 sample_fmt sample_pool
    [1, 2, 0] 3 (by decide) (by decide) rfl rfl (by decide) (by decide)

/-! ## Properties of the picture context binder -/

theorem IsChromaOpaque_of_chroma_to_vaapi (c : Int)
    (h : (vlc_chroma_to_vaapi c).isSome = true) : vlc_vaapi_IsChromaOpaque c = true := by
  have h3 := (vlc_chroma_to_vaapi_cases c).mp h
  unfold vlc_vaapi_IsChromaOpaque
  rcases h3 with h | h | h <;> simp [h]

/-- C9: for a pool created by `vlc_vaapi_PoolNew` on the display `dpy` with the video
context `vctx` and for `i < N`, in every state in which picture `i` is as the pool built
it (same chroma, same surface, display and context header) and carries no attachment,
`vlc_vaapi_PicAttachContext` returns; afterwards the picture carries the attachment held
in its own `p_sys`, `vlc_vaapi_PicGetSurface` returns the entry `i` of the array handed
back in `*render_targets`, which is the `i`-th id the driver wrote,
`vlc_vaapi_PicGetDisplay` returns `dpy`, the `picref` of the attachment is picture `i`,
and the hold count of `vctx` has grown by one, no other video context being touched. -/
theorem PicAttachContext_pool_picture (env : PoolEnv) (vctx_refs : Nat → Nat)
    (vctx dpy N : Nat) (fmt : video_format_t) (r : PoolNewResult) (i : Nat) (s : State)
    (p : picture_t) (q : picture_sys_t) (_hN : 1 ≤ N) (hN32 : N < 2 ^ 32)
    (hr : vlc_vaapi_PoolNew env vctx_refs vctx dpy N fmt = some r)
    (hpool : r.pool.isSome = true) (hi : i < N)
    (hs : s.pics i = some p) (hq : p.p_sys = some q)
    (horigin : ∃ p0 q0, r.state.pics i = some p0 ∧ p0.p_sys = some q0 ∧
      p.i_chroma = p0.i_chroma ∧ q.ctx.ctx = q0.ctx.ctx)
    (hnone : p.context = none) :
    ∃ s1 inst, vlc_vaapi_PicAttachContext s i = some s1 ∧
      r.render_targets = some 0 ∧ r.state.instances 0 = some inst ∧
      (∃ p1, s1.pics i = some p1 ∧ p1.context = some (ctx_ptr.p_sys i)) ∧
      vlc_vaapi_PicGetSurface s1 i = inst.render_targets[i]? ∧
      inst.render_targets[i]? = some (env.vaCreateSurfaces.2 i) ∧
      vlc_vaapi_PicGetDisplay s1 i = some dpy ∧
      (s1.vaapi_pic_ctx_at (ctx_ptr.p_sys i)).map (fun c => c.picref) = some (some i) ∧
      s1.vctx_refs vctx = s.vctx_refs vctx + 1 ∧
      (∀ v, v ≠ vctx → s1.vctx_refs v = s.vctx_refs v) := by
  obtain ⟨⟨rt, fourcc, hch⟩, hmalloc, hcreate, hall, hpn⟩ :=
    PoolNew_pool_isSome env vctx_refs vctx dpy N fmt r hN32 hr hpool
  obtain ⟨r1, h1, -, h3, h4, h5, -, -⟩ := PoolNew_success_spec env vctx_refs vctx dpy N fmt rt
    fourcc hN32 hch hmalloc hcreate hall hpn
  rw [hr] at h1
  cases h1
  obtain ⟨p0, q0, hp0, hq0, hchroma, hctx⟩ := horigin
  rw [h5 i] at hp0
  simp only [hi, if_true, Option.some.injEq] at hp0
  subst hp0
  simp only [pool_picture, Option.some.injEq] at hq0
  subst hq0
  have hopaque : vlc_vaapi_IsChromaOpaque p.i_chroma = true := by
    rw [hchroma]
    exact IsChromaOpaque_of_chroma_to_vaapi _ (by simp [pool_picture, hch])
  have hget : ((List.range N).map env.vaCreateSurfaces.2)[i]?
      = some (env.vaCreateSurfaces.2 i) := by
    simp [List.getElem?_map, List.getElem?_range hi]
  have hsurf : q.ctx.ctx.surface = env.vaCreateSurfaces.2 i := by
    rw [hctx]
    simp [pool_p_sys, List.getD_eq_getElem?_getD, hget]
  have hdpy : q.ctx.ctx.va_dpy = dpy := by rw [hctx]; rfl
  have hvctx : q.ctx.ctx.s.vctx = vctx := by rw [hctx]; rfl
  have hattach : vlc_vaapi_PicAttachContext s i = some
      (vlc_video_context_Hold
        { s with
          pics := Function.update s.pics i
            (some { p with
              p_sys := some { q with ctx := { q.ctx with picref := some i } }
              context := some (ctx_ptr.p_sys i) }) }
        q.ctx.ctx.s.vctx) := by
    simp [vlc_vaapi_PicAttachContext, hs, hq, hopaque, vlc_vaapi_PicSetContext, hnone,
      State.vaapi_pic_ctx_at]
  refine ⟨_, _, hattach, h3, h4, ?_, ?_, hget, ?_, ?_, ?_, ?_⟩
  · simp [vlc_video_context_Hold]
  · simp [vlc_vaapi_PicGetSurface, vlc_video_context_Hold, hopaque, State.vaapi_pic_ctx_at,
      hsurf, hget]
  · simp [vlc_vaapi_PicGetDisplay, vlc_video_context_Hold, hopaque, State.vaapi_pic_ctx_at,
      hdpy]
  · simp [vlc_video_context_Hold, State.vaapi_pic_ctx_at]
  · simp [vlc_video_context_Hold, hvctx]
  · intro v hv
    simp [vlc_video_context_Hold, hvctx, Function.update_noteq hv]

/-- Witness of `PicAttachContext_pool_picture`: picture 1 of `sample_pool`, right after
the pool was created. -/
theorem PicAttachContext_pool_picture_witness :
    ∃ s1 inst, vlc_vaapi_PicAttachContext sample_pool.state 1 = some s1 ∧
      sample_pool.render_targets = some 0 ∧ sample_pool.state.instances 0 = some inst ∧
      (∃ p1, s1.pics 1 = some p1 ∧ p1.context = some (ctx_ptr.p_sys 1)) ∧
      vlc_vaapi_PicGetSurface s1 1 = inst.render_targets[1]? ∧
      inst.render_targets[1]? = some (sample_env.vaCreateSurfaces.2 1) ∧
      vlc_vaapi_PicGetDisplay s1 1 = some 5 ∧
      (s1.vaapi_pic_ctx_at (ctx_ptr.p_sys 1)).map (fun c => c.picref) = some (some 1) ∧
      s1.vctx_refs 9 = sample_pool.state.vctx_refs 9 + 1 ∧
      (∀ v, v ≠ 9 → s1.vctx_refs v = sample_pool.state.vctx_refs v) :=
  PicAttachContext_pool_picture sample_env (fun _ => 1) 9 5 3 sample_fmt sample_pool 1
    sample_pool.state
    (pool_picture 9 5 sample_fmt 0 ((List.range 3).map sample_env.vaCreateSurfaces.2) 1)
    (pool_p_sys 9 5 0 ((List.range 3).map sample_env.vaCreateSurfaces.2) 1)
    (by decide) (by decide) rfl rfl (by decide) rfl rfl ⟨_, _, rfl, rfl, rfl, rfl⟩ rfl

/-- C6, as stated, fails: picture 1 of `sample_pool` is attached, its attachment is
copied and the copy is destroyed by `pic_ctx_destroy_cb`. The hold counts of the video
context and of the picture are 2 and 1 before the copy, 3 and 2 after it, and 3 and 1
after the destroy callback: the hold on the video context is not given back. -/
theorem pic_ctx_destroy_cb_keeps_vctx_hold :
    ((vlc_vaapi_PicAttachContext sample_pool.state 1).bind fun s =>
      (pic_ctx_copy_cb true s (ctx_ptr.p_sys 1)).bind fun c =>
        c.1.bind fun dup =>
          (pic_ctx_destroy_cb c.2 dup).map fun s3 =>
            ((s.vctx_refs 9, s.pic_refs 1), (c.2.vctx_refs 9, c.2.pic_refs 1),
              (s3.vctx_refs 9, s3.pic_refs 1)))
      = some ((2, some 1), (3, some 2), (3, some 1)) := by
  decide

/-- C6, amended: when `pic_ctx_copy_cb` succeeds on an attachment whose referenced
picture is held at least once, the hold count of the video context of the attachment and
the hold count of the referenced picture have each grown by exactly one; running
`pic_ctx_destroy_cb` on the duplicate then returns, brings the hold count of the picture
back to its value before the copy, and leaves the hold count of the video context one
above its value before the copy. -/
theorem pic_ctx_copy_then_destroy (malloc_ok : Bool) (s s2 : State) (src dup : ctx_ptr)
    (c : vaapi_pic_ctx) (pic : Nat) (p : picture_t)
    (hcopy : pic_ctx_copy_cb malloc_ok s src = some (some dup, s2))
    (hsrc : s.vaapi_pic_ctx_at src = some c) (hpicref : c.picref = some pic)
    (hpic : s.pics pic = some p) (hlive : 0 < p.refs) :
    s2.vctx_refs c.ctx.s.vctx = s.vctx_refs c.ctx.s.vctx + 1 ∧
    s2.pic_refs pic = some (p.refs + 1) ∧
    ∃ s3, pic_ctx_destroy_cb s2 dup = some s3 ∧ s3.pic_refs pic = some p.refs ∧
      s3.vctx_refs c.ctx.s.vctx = s.vctx_refs c.ctx.s.vctx + 1 := by
  have hm : malloc_ok = true := by
    by_contra hm
    have hm' : malloc_ok = false := by simpa using hm
    simp [pic_ctx_copy_cb, hm'] at hcopy
  subst hm
  simp only [pic_ctx_copy_cb, Bool.true_eq_false, if_false, hsrc, hpicref, picture_Hold,
    vlc_video_context_Hold, hpic, Option.map_some', Option.some.injEq, Prod.mk.injEq] at hcopy
  obtain ⟨hdup, hs2⟩ := hcopy
  subst hdup
  subst hs2
  have hlt : 1 < p.refs + 1 := by omega
  refine ⟨by simp, by simp [State.pic_refs], ?_⟩
  simp [pic_ctx_destroy_cb, State.vaapi_pic_ctx_at, hpicref, picture_Release, hlt,
    State.pic_refs]

/-- Witness of `pic_ctx_copy_then_destroy`: the attachment held in the `p_sys` of
picture 1 of `sample_pool`, once `picref` designates the picture. -/
theorem pic_ctx_copy_then_destroy_witness :
    (sample_attached_copy.2).vctx_refs 9 = sample_attached.vctx_refs 9 + 1 ∧
    (sample_attached_copy.2).pic_refs 1 = some (1 + 1) ∧
    ∃ s3, pic_ctx_destroy_cb sample_attached_copy.2 (ctx_ptr.heap 0) = some s3 ∧
      s3.pic_refs 1 = some 1 ∧
      s3.vctx_refs 9 = sample_attached.vctx_refs 9 + 1 :=
  pic_ctx_copy_then_destroy true sample_attached sample_attached_copy.2 (ctx_ptr.p_sys 1)
    (ctx_ptr.heap 0)
    { (pool_p_sys 9 5 0 ((List.range 3).map sample_env.vaCreateSurfaces.2) 1).ctx with
      picref := some 1 }
    1
    { pool_picture 9 5 sample_fmt 0 ((List.range 3).map sample_env.vaCreateSurfaces.2) 1 with
      p_sys := some
        { pool_p_sys 9 5 0 ((List.range 3).map sample_env.vaCreateSurfaces.2) 1 with
          ctx :=
            { (pool_p_sys 9 5 0 ((List.range 3).map sample_env.vaCreateSurfaces.2) 1).ctx with
              picref := some 1 } }
      context := some (ctx_ptr.p_sys 1) }
    rfl rfl rfl rfl (by decide)

end VlcVaapi
